import Mathlib

/-!
Verification development for the drawing-detector repository.

The detector modules are translated from the JavaScript sources into
executable Lean definitions:

* JS numbers that carry pixel coordinates, sizes and ratios are modelled as
  rationals (`ℚ`); all comparisons appearing in the sources are exact integer
  or rational comparisons except where noted in the doc comment of the
  corresponding definition.
* `parseFloat` / `Number.prototype.toString` and the one floating-point
  subtraction performed by `valuesMatch` are modelled exactly, by a
  round-to-nearest-even binary64 rounding function over `ℚ`.
* JS regular expressions are modelled by a small backtracking matcher whose
  alternative ordering mirrors the JS backtracking priority (greedy/lazy
  quantifiers, leftmost match, `matchAll` restart at the match end).
* The mutable `Set` objects used as visited sets and the BFS queues are
  modelled by explicit lists threaded through the recursion.
-/

/- Batteries marks the `Rat` arithmetic operations `@[irreducible]`, which
blocks kernel evaluation inside `decide`; restore the default reducibility so
the executable definitions below evaluate on concrete inputs. -/
attribute [local semireducible] Rat.mul Rat.add Rat.sub Rat.inv

set_option maxRecDepth 200000

/-! ## Region data model and the region merger

`Region` carries the five numeric fields every detector box has, plus the
optional annotation fields (`text1`/`text2`/`text`, `detectionMethod`,
`isCanvasCoords`) that some detectors attach.  A JS object without one of
those fields is modelled with `none` / `false`. -/

@[ext]
structure Region where
  x : ℚ
  y : ℚ
  width : ℚ
  height : ℚ
  pixelCount : ℚ
  text1 : Option String := none
  text2 : Option String := none
  text : Option String := none
  detectionMethod : Option String := none
  isCanvasCoords : Bool := false
deriving DecidableEq, Repr

/-- Horizontal gap of the JS merger:
`Math.max(e.x - (o.x + o.width), o.x - (e.x + e.width), 0)`. -/
def hDist (e o : Region) : ℚ :=
  max (e.x - (o.x + o.width)) (max (o.x - (e.x + e.width)) 0)

/-- Vertical gap of the JS merger:
`Math.max(e.y - (o.y + o.height), o.y - (e.y + e.height), 0)`. -/
def vDist (e o : Region) : ℚ :=
  max (e.y - (o.y + o.height)) (max (o.y - (e.y + e.height)) 0)

/-- Merge condition of the JS merger:
`horizontalDistance <= mergeDistance && verticalDistance <= mergeDistance`. -/
def canMergeB (d : ℚ) (e o : Region) : Bool :=
  decide (hDist e o ≤ d) && decide (vDist e o ≤ d)

/-- Union box built by the JS merger when two boxes merge.  The merged object
literal carries only the five numeric fields, so the annotation fields revert
to their absent defaults. -/
def unionRegion (e o : Region) : Region :=
  { x := min e.x o.x
    y := min e.y o.y
    width := max (e.x + e.width) (o.x + o.width) - min e.x o.x
    height := max (e.y + e.height) (o.y + o.height) - min e.y o.y
    pixelCount := e.pixelCount + o.pixelCount }

/-- Inner `j` loop of one merger pass: the running `element` (the JS local
mutable `element`) absorbs, left to right, every not-yet-processed box within
range, comparing each candidate against the current (possibly already grown)
`element`.  Returns the final element, the boxes left unabsorbed in order, and
whether any merge happened. -/
def absorbOnce (d : ℚ) (e : Region) : List Region → Region × List Region × Bool
  | [] => (e, [], false)
  | b :: bs =>
    if canMergeB d e b then
      let r := absorbOnce d (unionRegion e b) bs
      (r.1, r.2.1, true)
    else
      let r := absorbOnce d e bs
      (r.1, b :: r.2.1, r.2.2)

/-- One full pass of the JS `while (merged)` loop body: every box in turn
(unless already absorbed) absorbs the later boxes in range; `processed`
bookkeeping is realised by recursing on the unabsorbed remainder. -/
def mergePass (d : ℚ) : List Region → List Region × Bool
  | [] => ([], false)
  | e :: es =>
    let a := absorbOnce d e es
    let r := mergePass d a.2.1
    (a.1 :: r.1, a.2.2 || r.2)
termination_by es => es.length
decreasing_by
  have key : ∀ (x : Region) (l : List Region),
      ((absorbOnce d x l).2.1).length ≤ l.length := by
    intro x l
    induction l generalizing x with
    | nil => simp [absorbOnce]
    | cons b bs ih =>
      simp only [absorbOnce]
      by_cases hc : canMergeB d x b = true
      · simp only [hc, if_true]
        exact le_trans (ih _) (Nat.le_succ _)
      · simp only [hc, if_false, List.length_cons]
        exact Nat.succ_le_succ (ih _)
  simp only [List.length_cons]
  exact Nat.lt_succ_of_le (key _ _)

/-- The JS `while (merged)` loop: repeat passes until a pass makes no merge.
Each merging pass strictly shrinks the list, so `length + 1` passes always
reach the fixed point; the fuel is never exhausted (see
`mergePass_mergeNearby`). -/
def mergeLoop (d : ℚ) : Nat → List Region → List Region
  | 0, es => es
  | fuel + 1, es =>
    let p := mergePass d es
    if p.2 then mergeLoop d fuel p.1 else p.1

/-- The JS merger (`mergeNearbyElements` / `mergeNearbyHighlights` /
`mergeNearbyRegions`, which differ only in the distance constant):
early-returns an empty input, otherwise iterates passes to a fixed point. -/
def mergeNearby (d : ℚ) (es : List Region) : List Region :=
  if es.isEmpty then es else mergeLoop d (es.length + 1) es

/-- Red-elements merger, `mergeDistance = 15` (redElements.js). -/
def mergeNearbyElements (es : List Region) : List Region := mergeNearby 15 es

/-- Highlights merger, `mergeDistance = 20` (highlights.js). -/
def mergeNearbyHighlights (es : List Region) : List Region := mergeNearby 20 es

/-- Overlapping-text merger, `mergeDistance = 10` (overlappingText.js). -/
def mergeNearbyRegions (es : List Region) : List Region := mergeNearby 10 es

/-! ## JS string helpers -/

/-- JS `String.prototype.trim` (strip whitespace from both ends). -/
def trimList (l : List Char) : List Char :=
  ((l.dropWhile Char.isWhitespace).reverse.dropWhile Char.isWhitespace).reverse

/-- JS `String.prototype.trim` on `String`. -/
def jsTrim (s : String) : String := String.mk (trimList s.toList)

/-- JS `String.prototype.toUpperCase` (ASCII suffices for the texts here). -/
def toUpperStr (s : String) : String := String.mk (s.toList.map Char.toUpper)

/-- JS `String.prototype.toLowerCase`. -/
def toLowerStr (s : String) : String := String.mk (s.toList.map Char.toLower)

/-- Scan for `sub` as a contiguous sublist of `l`. -/
def hasInfix (l sub : List Char) : Bool :=
  if sub.isPrefixOf l then true
  else
    match l with
    | [] => false
    | _ :: t => hasInfix t sub

/-- JS `String.prototype.includes`. -/
def strContains (s sub : String) : Bool := hasInfix s.toList sub.toList

/-! ## A small backtracking regular-expression engine

The engine mirrors the JS backtracking search order: a node evaluates to the
list of all reachable end states in priority order, so the head of the list is
the state the JS engine commits to.  `cap` tracks capture group 1 (every
pattern in this code base has at most one group). -/

inductive RE where
  | eps : RE
  | cls : (Char → Bool) → RE
  | seq : RE → RE → RE
  | alt : RE → RE → RE
  | star : Bool → RE → RE
  | opt : RE → RE
  | grp : RE → RE
  | wordB : RE

/-- Matcher state: current position and the span of capture group 1. -/
structure MState where
  pos : Nat
  cap : Option (Nat × Nat)
deriving DecidableEq, Repr

/-- JS `\w` (word character) for `\b`. -/
def isWordChar (c : Char) : Bool := c.isAlphanum || c == '_'

/-- Position test for the JS `\b` assertion. -/
def atWordBoundary (s : List Char) (pos : Nat) : Bool :=
  let prev := if pos = 0 then false else
    match s[pos - 1]? with
    | some c => isWordChar c
    | none => false
  let cur :=
    match s[pos]? with
    | some c => isWordChar c
    | none => false
  prev != cur

/-- Structural size of a pattern, used to bound the evaluation fuel. -/
def reSize : RE → Nat
  | .eps => 1
  | .cls _ => 1
  | .seq r1 r2 => reSize r1 + reSize r2 + 1
  | .alt r1 r2 => reSize r1 + reSize r2 + 1
  | .star _ r => reSize r + 1
  | .opt r => reSize r + 1
  | .grp r => reSize r + 1
  | .wordB => 1

/-- Backtracking evaluation: all end states in JS priority order.  The fuel
(structural, decremented on every recursive call) is a recursion-depth bound:
between two unfoldings of the same `star` the evaluator only descends into
strict subpatterns, and every `star` iteration strictly advances the position
(the `filter` below realises the ECMA rule that a quantifier stops on an
empty repetition match), so a depth of
`(reSize r + 1) * (length + 2)` can never be exhausted when supplied by the
top level (`reFuel`). -/
def reRun (s : List Char) : Nat → RE → MState → List MState
  | 0, _, _ => []
  | _ + 1, .eps, st => [st]
  | _ + 1, .cls p, st =>
    match s[st.pos]? with
    | some c => if p c then [{ st with pos := st.pos + 1 }] else []
    | none => []
  | fuel + 1, .seq r1 r2, st => (reRun s fuel r1 st).flatMap (reRun s fuel r2)
  | fuel + 1, .alt r1 r2, st => reRun s fuel r1 st ++ reRun s fuel r2 st
  | fuel + 1, .opt r, st => reRun s fuel r st ++ [st]
  | fuel + 1, .grp r, st =>
    (reRun s fuel r st).map (fun st2 => { st2 with cap := some (st.pos, st2.pos) })
  | _ + 1, .wordB, st => if atWordBoundary s st.pos then [st] else []
  | fuel + 1, .star g r, st =>
    let firsts := (reRun s fuel r st).filter (fun st2 => st.pos < st2.pos)
    let deeper := firsts.flatMap (reRun s fuel (.star g r))
    if g then deeper ++ [st] else st :: deeper

/-- The sufficient evaluation fuel for a pattern on a string. -/
def reFuel (r : RE) (s : List Char) : Nat := (reSize r + 1) * (s.length + 2)

/-- First (JS-committed) match attempt at a fixed start position. -/
def reFirstAt (r : RE) (s : List Char) (start : Nat) : Option MState :=
  (reRun s (reFuel r s) r { pos := start, cap := none }).head?

/-- Scan for the leftmost match from a start position (JS `exec`). -/
def reSearchAux (r : RE) (s : List Char) : Nat → Nat → Option (Nat × MState)
  | 0, _ => none
  | steps + 1, i =>
    match reFirstAt r s i with
    | some st => some (i, st)
    | none => reSearchAux r s steps (i + 1)

/-- Leftmost match with start index ≥ `start`, as `(index, end state)`. -/
def reSearch (r : RE) (s : List Char) (start : Nat) : Option (Nat × MState) :=
  reSearchAux r s (s.length + 1 - start) start

/-- JS `regex.test(str)` for an unanchored pattern. -/
def reTest (r : RE) (s : String) : Bool := (reSearch r s.toList 0).isSome

/-- JS `regex.test(str)` for a pattern of the form `^...$` (the anchors are
represented by demanding a full match of the body). -/
def reTestFull (r : RE) (s : String) : Bool :=
  (reRun s.toList (reFuel r s.toList) r { pos := 0, cap := none }).any
    (fun st => st.pos = s.toList.length)

/-- One element of a JS `matchAll` result: `index`, end position, `match[0]`
and `match[1]`. -/
structure JsMatch where
  index : Nat
  stop : Nat
  matched : String
  group1 : Option String
deriving DecidableEq, Repr

/-- Build the JS match record from a start index and an end state. -/
def mkJsMatch (s : List Char) (start : Nat) (st : MState) : JsMatch :=
  { index := start
    stop := st.pos
    matched := String.mk ((s.drop start).take (st.pos - start))
    group1 := st.cap.map (fun c => String.mk ((s.drop c.1).take (c.2 - c.1))) }

/-- Iterate matches: restart at the match end, advancing by one on an empty
match (JS `matchAll` / global `lastIndex` semantics). -/
def reMatchAllAux (r : RE) (s : List Char) : Nat → Nat → List JsMatch
  | 0, _ => []
  | steps + 1, pos =>
    match reSearch r s pos with
    | none => []
    | some (i, st) =>
      mkJsMatch s i st :: reMatchAllAux r s steps (if i < st.pos then st.pos else i + 1)

/-- JS `[...str.matchAll(regex)]` for a `g`-flagged pattern (with
`lastIndex` reset to 0 first, as the sources do). -/
def reMatchAll (r : RE) (s : String) : List JsMatch :=
  reMatchAllAux r s.toList (s.toList.length + 1) 0

/-! Pattern combinators covering the constructs used by the sources. -/

/-- Sequence a list of nodes. -/
def reSeq (l : List RE) : RE := l.foldr .seq .eps

/-- Case-sensitive literal character. -/
def rCh (c : Char) : RE := .cls (fun x => x == c)

/-- Case-insensitive literal character (`/i` flag). -/
def rChCI (c : Char) : RE := .cls (fun x => x.toLower == c.toLower)

/-- Case-insensitive literal string. -/
def rStrCI (str : String) : RE := reSeq (str.toList.map rChCI)

/-- Character class given by an explicit list (case sensitive). -/
def rAnyOf (cs : List Char) : RE := .cls (fun x => cs.contains x)

/-- JS `\d`. -/
def rDigit : RE := .cls Char.isDigit

/-- JS `\s` (the whitespace forms occurring in extracted PDF text). -/
def rWs : RE := .cls Char.isWhitespace

/-- JS `\s*`. -/
def rWs0 : RE := .star true rWs

/-- JS `\s+`. -/
def rWs1 : RE := .seq rWs (.star true rWs)

/-- Greedy `+`. -/
def rPlus (r : RE) : RE := .seq r (.star true r)

/-- Greedy `*`. -/
def rStar (r : RE) : RE := .star true r

/-- Lazy `*?`. -/
def rLazyStar (r : RE) : RE := .star false r

/-- JS `.` without the `s` flag (the sources never contain the exotic line
terminators, so excluding `\n`/`\r` is exact here). -/
def rDot : RE := .cls (fun c => !(c == '\n' || c == '\r'))

/-- Greedy `{0,k}` as a nest of optionals (try the longer expansion first,
matching the JS backtracking order for `{m,n}`). -/
def rRepOpt : Nat → RE → RE
  | 0, _ => .eps
  | k + 1, r => .opt (.seq r (rRepOpt k r))

/-- Greedy bounded repetition `{m,n}`. -/
def rRep (m n : Nat) (r : RE) : RE :=
  .seq (reSeq (List.replicate m r)) (rRepOpt (n - m) r)

/-- JS `[=:]`. -/
def rEqColon : RE := rAnyOf ['=', ':']

/-- JS `[=:,]`. -/
def rEqColonComma : RE := rAnyOf ['=', ':', ',']

/-- JS `[-–]` (hyphen or en dash). -/
def rDash : RE := rAnyOf ['-', '–']

/-- JS `[A-F]` under the `/i` flag, as capture group. -/
def rClassAF : RE :=
  .grp (.cls (fun c => decide ('A' ≤ c.toUpper) && decide (c.toUpper ≤ 'F')))

/-- JS `(I{1,3}|IV)` under the `/i` flag. -/
def rRoman : RE :=
  .grp (.alt (rRep 1 3 (rChCI 'I')) (rStrCI "IV"))

/-- JS `(\d+\.?\d+)`. -/
def rNum2 : RE := .grp (reSeq [rPlus rDigit, .opt (rCh '.'), rPlus rDigit])

/-- JS `(\d+\.?\d*)`. -/
def rNum1 : RE := .grp (reSeq [rPlus rDigit, .opt (rCh '.'), rStar rDigit])

/-- JS `(\d+\.\d+)`. -/
def rDecimal : RE := .grp (reSeq [rPlus rDigit, rCh '.', rPlus rDigit])

/-- JS `\d{1,2}(?:\.\d+)?` (no group). -/
def rShortNumBody : RE :=
  .seq (rRep 1 2 rDigit) (.opt (.seq (rCh '.') (rPlus rDigit)))

/-- JS `(\d{1,2}(?:\.\d+)?)`. -/
def rShortNum : RE := .grp rShortNumBody

/-- JS `(\d{1,2}\.\d+)`. -/
def rShortDec : RE := .grp (reSeq [rRep 1 2 rDigit, rCh '.', rPlus rDigit])

/-! ## Exact binary64 model for `parseFloat`, `Number.prototype.toString`
and the float subtraction in `valuesMatch`

A JS number is modelled by the exact rational value of the binary64 double.
`rnd52` is round-to-nearest, ties-to-even at 53 significand bits, which is
exact for all normal-range values (the seismic parameters and tolerances live
far inside the normal range, so subnormal/overflow handling is irrelevant). -/

/-- Floor logarithm of a natural number, by fueled division (structural so
that the kernel can evaluate it; the constant fuel 4200 covers every value in
the binary64 normal range, consistent with the normal-range scope of this
model). -/
def natLogF (b : ℕ) : ℕ → ℕ → ℕ
  | 0, _ => 0
  | fuel + 1, n => if n < b ∨ b ≤ 1 then 0 else natLogF b fuel (n / b) + 1

/-- Ceiling logarithm of a natural number, by fueled division. -/
def natClogF (b : ℕ) : ℕ → ℕ → ℕ
  | 0, _ => 0
  | fuel + 1, n => if n ≤ 1 ∨ b ≤ 1 then 0 else natClogF b fuel ((n + b - 1) / b) + 1

/-- Floor logarithm of a positive rational (the `Int.log` recurrences,
restated with fueled evaluation). -/
def qLog (b : ℕ) (q : ℚ) : ℤ :=
  if 1 ≤ q then (natLogF b 4200 ⌊q⌋.toNat : ℤ) else -(natClogF b 4200 ⌈q⁻¹⌉.toNat : ℤ)

/-- Integer power of a natural base as a rational (structural). -/
def qpow (b : ℕ) : ℤ → ℚ
  | .ofNat n => ((b ^ n : ℕ) : ℚ)
  | .negSucc n => 1 / ((b ^ (n + 1) : ℕ) : ℚ)

/-- Round a rational to the nearest binary64 value (normal range,
round-to-nearest, ties to even). -/
def rnd52 (q : ℚ) : ℚ :=
  if q = 0 then 0
  else
    let a := |q|
    let e : ℤ := qLog 2 a
    let scale : ℚ := qpow 2 (52 - e)
    let m : ℚ := a * scale
    let n : ℤ := ⌊m⌋
    let r : ℚ := m - (n : ℚ)
    let n2 : ℤ :=
      if 1 / 2 < r then n + 1
      else if r < 1 / 2 then n
      else if n % 2 = 0 then n else n + 1
    (if q < 0 then -(n2 : ℚ) else (n2 : ℚ)) / scale

/-- Parse a run of decimal digits: value, digit count, rest. -/
def splitDigits : List Char → ℕ × ℕ × List Char
  | c :: cs =>
    if c.isDigit then
      let r := splitDigits cs
      ((c.toNat - 48) * 10 ^ r.2.1 + r.1, r.2.1 + 1, r.2.2)
    else (0, 0, c :: cs)
  | [] => (0, 0, [])

/-- Optional exponent part of a JS number literal; an `e` not followed by
digits is trailing garbage that `parseFloat` ignores. -/
def parseExpo : List Char → ℤ
  | c :: rest =>
    if c == 'e' || c == 'E' then
      match rest with
      | '-' :: ds => let r := splitDigits ds; if r.2.1 = 0 then 0 else -(r.1 : ℤ)
      | '+' :: ds => let r := splitDigits ds; if r.2.1 = 0 then 0 else (r.1 : ℤ)
      | ds => let r := splitDigits ds; if r.2.1 = 0 then 0 else (r.1 : ℤ)
    else 0
  | [] => 0

/-- JS `parseFloat`: longest numeric prefix after leading whitespace, `none`
for `NaN`.  (`Infinity` literals never occur in this code base.)  The decimal
value is rounded to the nearest double. -/
def jsParseFloat (s : String) : Option ℚ :=
  let l := s.toList.dropWhile Char.isWhitespace
  let sl : ℚ × List Char :=
    match l with
    | '-' :: rest => (-1, rest)
    | '+' :: rest => (1, rest)
    | _ => (1, l)
  let ipart := splitDigits sl.2
  let fres : ℕ × ℕ × List Char :=
    match ipart.2.2 with
    | '.' :: rest => splitDigits rest
    | _ => (0, 0, ipart.2.2)
  if ipart.2.1 + fres.2.1 = 0 then none
  else
    let base : ℚ := sl.1 * ((ipart.1 : ℚ) + (fres.1 : ℚ) / qpow 10 (fres.2.1 : ℤ))
    some (rnd52 (base * qpow 10 (parseExpo fres.2.2)))

/-- Decimal digit characters of a natural number. -/
def natDigits (n : ℕ) : List Char := (Nat.repr n).toList

/-- Strip trailing decimal zeros of a significand (fuel 24 covers the at
most 17 significant digits a shortest double representation can have). -/
def stripZerosF : ℕ → ℕ → ℕ
  | 0, n => n
  | fuel + 1, n => if n ≠ 0 ∧ n % 10 = 0 then stripZerosF fuel (n / 10) else n

/-- Strip trailing decimal zeros of a significand. -/
def stripZeros (n : ℕ) : ℕ := stripZerosF 24 n

/-- Positional formatting of `Number.prototype.toString` (ECMA-262 7.1.12.1):
significand digits `n` with the decimal point placed according to `k`, falling
back to exponential notation outside `-6 < k ≤ 21` (never reached for the
values this project handles). -/
def fmtPositional (n : ℕ) (k : ℤ) : List Char :=
  let s := natDigits n
  let p : ℤ := s.length
  if p ≤ k ∧ k ≤ 21 then s ++ List.replicate (k - p).toNat '0'
  else if 0 < k ∧ k ≤ 21 then s.take k.toNat ++ '.' :: s.drop k.toNat
  else if -6 < k ∧ k ≤ 0 then '0' :: '.' :: (List.replicate (-k).toNat '0' ++ s)
  else
    let em := k - 1
    let head := s.take 1
    let tail := s.drop 1
    head ++ (if tail.isEmpty then [] else '.' :: tail) ++
      'e' :: (if em < 0 then '-' :: natDigits (-em).toNat else '+' :: natDigits em.toNat)

/-- Try to represent double `q > 0` with `p` significant decimal digits: round
to `p` digits and accept if the decimal round-trips to the same double. -/
def tryPrec (q : ℚ) (p : ℕ) : Option (List Char) :=
  let k0 : ℤ := qLog 10 q + 1
  let scale : ℚ := qpow 10 ((p : ℤ) - k0)
  let m := q * scale
  let n : ℤ := ⌊m⌋
  let r := m - (n : ℚ)
  let n2 : ℤ := if 1 / 2 < r then n + 1 else if r < 1 / 2 then n else if n % 2 = 0 then n else n + 1
  let cand : ℚ := (n2 : ℚ) / scale
  if rnd52 cand = q ∧ 0 < n2 then
    some (fmtPositional (stripZeros n2.toNat) (qLog 10 cand + 1))
  else none

/-- Search the shortest faithful decimal representation, precisions 1..17
ascending (17 digits always round-trip a double, so the terminal default is
unreachable). -/
def tsGo (a : ℚ) : ℕ → ℕ → List Char
  | 0, _ => ['0']
  | fuel + 1, p =>
    match tryPrec a p with
    | some s => s
    | none => tsGo a fuel (p + 1)

/-- JS `Number.prototype.toString` on the exact value of a double. -/
def jsNumToString (q : ℚ) : String :=
  if q = 0 then "0"
  else if q < 0 then String.mk ('-' :: tsGo (-q) 17 1)
  else String.mk (tsGo q 17 1)

/-! ## Seismic pattern library (geotechPatterns.js)

Each JS regex literal of `SEISMIC_PATTERNS` is transcribed into the engine
syntax.  All of them carry the `gi` flags, so literal letters are
case-insensitive (`rChCI`/`rStrCI`). -/

/-- Parameter keys of `SEISMIC_PATTERNS`, in object-literal order. -/
inductive SKey where
  | Sds | Sd1 | Sms | Sm1 | Ss | S1 | Fa | Fv
  | siteClass | riskCategory | seismicDesignCategory
deriving DecidableEq, Repr

/-- The object-literal insertion order, which `Object.entries` iterates. -/
def seismicKeys : List SKey :=
  [.Sds, .Sd1, .Sms, .Sm1, .Ss, .S1, .Fa, .Fv,
   .siteClass, .riskCategory, .seismicDesignCategory]

/-- One parameter entry of `SEISMIC_PATTERNS`. -/
structure SeismicConfig where
  label : String
  fullName : String
  patterns : List RE
  type : String
  validValues : Option (List String) := none

/-- The first `Sds` pattern, `S\s*DS\s*:\s*` with the numeric group. -/
def sdsPattern1 : RE :=
  reSeq [rChCI 'S', rWs0, rStrCI "DS", rWs0, rCh ':', rWs0, rNum2]

/-- Pattern list for `Sds` (nine regexes). -/
def sdsPatterns : List RE :=
  [ sdsPattern1,
    reSeq [rStrCI "SDS", rWs0, rCh ':', rWs0, rNum2],
    reSeq [rChCI 'S', .opt (.cls (fun c => c == '_' || c.isWhitespace)), rStrCI "DS",
           rWs0, rCh '=', rWs0, rNum1],
    reSeq [rStrCI "S_DS", rWs1, rDecimal, rWs0, rChCI 'g'],
    reSeq [rStrCI "SDS", rWs1, rDecimal, rWs0, rChCI 'g'],
    reSeq [rChCI 'S', rWs1, rStrCI "DS", rWs1, rDecimal, rWs0, rChCI 'g'],
    reSeq [rStrCI "Design", rWs1, rStrCI "Spectral", rWs1, rStrCI "Response", rWs1,
           rStrCI "Acceleration", rWs1, rLazyStar rDot, rCh '(', rLazyStar rDot,
           rStrCI "short", rLazyStar rDot, rStrCI "period", rLazyStar rDot, rCh ')',
           rLazyStar rDot, rEqColon, rWs0, rDecimal],
    reSeq [rStrCI "Short", rWs1, rStrCI "Period", rWs1, rStrCI "Design", rWs1,
           rStrCI "Spectral", rWs1, rStrCI "Response", rWs1, rStrCI "Acceleration",
           rWs0, rEqColon, rWs0, rDecimal],
    reSeq [rStrCI "Adjusted", rWs1, rStrCI "Short", rWs1, rStrCI "Period", rWs1,
           rStrCI "Spectral", rWs1, rStrCI "Acceleration", rWs0, rEqColon, rWs0, rDecimal] ]

/-- Pattern list for `Sd1`. -/
def sd1Patterns : List RE :=
  [ reSeq [rChCI 'S', rWs0, rStrCI "D1", rWs0, rCh ':', rWs0, rNum2],
    reSeq [rStrCI "SD1", rWs0, rCh ':', rWs0, rNum2],
    reSeq [rChCI 'S', .opt (.cls (fun c => c == '_' || c.isWhitespace)), rStrCI "D1",
           rWs0, rCh '=', rWs0, rNum1],
    reSeq [rStrCI "S_D1", rWs1, rDecimal, rWs0, rChCI 'g'],
    reSeq [rStrCI "SD1", rWs1, rDecimal, rWs0, rChCI 'g'],
    reSeq [rChCI 'S', rWs1, rStrCI "D1", rWs1, rDecimal, rWs0, rChCI 'g'],
    reSeq [rStrCI "Design", rWs1, rStrCI "Spectral", rWs1, rStrCI "Response", rWs1,
           rStrCI "Acceleration", rWs1, rLazyStar rDot, rCh '(', rLazyStar rDot,
           rCh '1', rLazyStar rDot, rStrCI "second", rLazyStar rDot, rCh ')',
           rLazyStar rDot, rEqColon, rWs0, rDecimal],
    reSeq [rCh '1', rWs0, rDash, rWs0, rStrCI "Second", rWs1, rStrCI "Design", rWs1,
           rStrCI "Spectral", rWs1, rStrCI "Response", rWs1, rStrCI "Acceleration",
           rWs0, rEqColon, rWs0, rDecimal],
    reSeq [rStrCI "Adjusted", rWs1, rCh '1', rWs0, rDash, rWs0, rStrCI "Second", rWs1,
           rStrCI "Spectral", rWs1, rStrCI "Acceleration", rWs0, rEqColon, rWs0, rDecimal] ]

/-- Pattern list for `Sms`. -/
def smsPatterns : List RE :=
  [ reSeq [rChCI 'S', rWs0, rStrCI "MS", rWs0, rCh ':', rWs0, rNum2],
    reSeq [rStrCI "SMS", rWs0, rCh ':', rWs0, rNum2],
    reSeq [rStrCI "S_MS", rWs1, rDecimal, rWs0, rChCI 'g'],
    reSeq [rStrCI "SMS", rWs1, rDecimal, rWs0, rChCI 'g'],
    reSeq [rChCI 'S', rWs1, rStrCI "MS", rWs1, rDecimal, rWs0, rChCI 'g'],
    reSeq [rStrCI "S_MS", rWs0, rCh '=', rWs0, rDecimal],
    reSeq [rStrCI "SMS", rWs0, rCh '=', rWs0, rDecimal] ]

/-- Pattern list for `Sm1`. -/
def sm1Patterns : List RE :=
  [ reSeq [rChCI 'S', rWs0, rStrCI "M1", rWs0, rCh ':', rWs0, rNum2],
    reSeq [rStrCI "SM1", rWs0, rCh ':', rWs0, rNum2],
    reSeq [rStrCI "S_M1", rWs1, rDecimal, rWs0, rChCI 'g'],
    reSeq [rStrCI "SM1", rWs1, rDecimal, rWs0, rChCI 'g'],
    reSeq [rChCI 'S', rWs1, rStrCI "M1", rWs1, rDecimal, rWs0, rChCI 'g'],
    reSeq [rStrCI "S_M1", rWs0, rCh '=', rWs0, rDecimal],
    reSeq [rStrCI "SM1", rWs0, rCh '=', rWs0, rDecimal] ]

/-- Pattern list for `Ss`. -/
def ssPatterns : List RE :=
  [ reSeq [rStrCI "Mapped", rWs1, rStrCI "Spectral", rWs1, rStrCI "Response", rWs1,
           rStrCI "Acceleration", rWs1, rStrCI "at", rWs1, rCh '0', rCh '.', rCh '2',
           rCh '-', rStrCI "second", rWs1, rStrCI "period", .opt (rCh ','), rWs1,
           rChCI 'S', rChCI 's', rWs1, rShortNum, rWs0, rChCI 'g'],
    reSeq [.wordB, rChCI 'S', rWs1, rChCI 'S', rWs0, rEqColonComma, rWs0, rShortNum,
           rWs0, .opt (rChCI 'g'), .wordB],
    reSeq [.wordB, rStrCI "SS", rWs0, rEqColonComma, rWs0, rShortNum,
           rWs0, .opt (rChCI 'g'), .wordB],
    reSeq [.wordB, rStrCI "Ss", rWs0, rCh '=', rWs0, rShortNum, .wordB],
    reSeq [rStrCI "MCER", rWs1, rLazyStar rDot, rStrCI "Short", rWs1, rStrCI "Period",
           rWs1, rLazyStar rDot, rEqColon, rWs0, rShortDec],
    reSeq [rStrCI "Mapped", rWs1, rStrCI "Spectral", rWs1, rStrCI "Acceleration", rWs1,
           rLazyStar rDot, rStrCI "Short", rWs1, rStrCI "Period", rLazyStar rDot,
           rEqColon, rWs0, rShortDec],
    reSeq [rStrCI "Risk", rWs0, rDash, rWs0, rStrCI "Targeted", rWs1, rLazyStar rDot,
           rStrCI "Short", rWs1, rStrCI "Period", rLazyStar rDot, rEqColon, rWs0, rShortDec] ]

/-- Pattern list for `S1`. -/
def s1Patterns : List RE :=
  [ reSeq [rStrCI "Mapped", rWs1, rStrCI "Spectral", rWs1, rStrCI "Response", rWs1,
           rStrCI "Acceleration", rWs1, rStrCI "at", rWs1, rCh '1', rCh '.', rCh '0',
           rCh '-', rStrCI "second", rWs1, rStrCI "period", .opt (rCh ','), rWs1,
           rChCI 'S', rAnyOf ['1', '₁'], rWs1, rShortNum, rWs0, rChCI 'g'],
    reSeq [.wordB, rChCI 'S', rWs1, rCh '1', rWs0, rEqColonComma, rWs0, rShortNum,
           rWs0, .opt (rChCI 'g'), .wordB],
    reSeq [.wordB, rChCI 'S', rCh '1', rWs0, rEqColonComma, rWs0, rShortNum,
           rWs0, .opt (rChCI 'g'), .wordB],
    reSeq [rStrCI "MCER", rWs1, rLazyStar rDot, rCh '1', rWs0, rDash, rWs0,
           rStrCI "Second", rLazyStar rDot, rEqColon, rWs0, rShortDec],
    reSeq [rStrCI "Mapped", rWs1, rStrCI "Spectral", rWs1, rStrCI "Acceleration", rWs1,
           rLazyStar rDot, rCh '1', rWs0, rDash, rWs0, rStrCI "Second", rLazyStar rDot,
           rEqColon, rWs0, rShortDec],
    reSeq [rStrCI "Risk", rWs0, rDash, rWs0, rStrCI "Targeted", rWs1, rLazyStar rDot,
           rCh '1', rWs0, rDash, rWs0, rStrCI "Second", rLazyStar rDot, rEqColon,
           rWs0, rShortDec] ]

/-- Pattern list for `Fa`. -/
def faPatterns : List RE :=
  [ reSeq [rStrCI "Site", rWs1, rStrCI "Coefficient", .opt (rCh ','), rWs1,
           rStrCI "Fa", rWs1, rDecimal],
    reSeq [rStrCI "FA", rWs0, rEqColonComma, rWs0, rDecimal],
    reSeq [rChCI 'F', .opt (.cls (fun c => c == '_' || c.isWhitespace)), rChCI 'A',
           rWs0, rEqColonComma, rWs0, rDecimal],
    reSeq [rStrCI "Site", rWs1, rStrCI "Coefficient", rWs1, rLazyStar rDot,
           rStrCI "Short", rWs1, rStrCI "Period", rLazyStar rDot, rEqColon, rWs0, rDecimal],
    reSeq [rStrCI "Site", rWs1, rStrCI "Class", rWs1, rStrCI "Modification", rWs1,
           rStrCI "Factor", rWs1, rLazyStar rDot, rCh '0', rCh '.', rCh '2',
           rLazyStar rDot, rEqColon, rWs0, rDecimal],
    reSeq [rStrCI "FPGA", rWs0, rEqColon, rWs0, rDecimal] ]

/-- Pattern list for `Fv`. -/
def fvPatterns : List RE :=
  [ reSeq [rStrCI "FV", rWs0, rEqColon, rWs0, rDecimal],
    reSeq [rChCI 'F', .opt (.cls (fun c => c == '_' || c.isWhitespace)), rChCI 'V',
           rWs0, rEqColon, rWs0, rDecimal],
    reSeq [rStrCI "Site", rWs1, rStrCI "Coefficient", rWs1, rLazyStar rDot,
           rCh '1', rWs0, rDash, rWs0, rStrCI "Second", rLazyStar rDot, rEqColon,
           rWs0, rDecimal],
    reSeq [rStrCI "Site", rWs1, rStrCI "Class", rWs1, rStrCI "Modification", rWs1,
           rStrCI "Factor", rWs1, rLazyStar rDot, rCh '1', rCh '.', rCh '0',
           rLazyStar rDot, rEqColon, rWs0, rDecimal] ]

/-- Pattern list for `siteClass`. -/
def siteClassPatterns : List RE :=
  [ reSeq [rStrCI "Site", rWs1, rStrCI "Class", rWs1, rClassAF, .wordB],
    reSeq [rStrCI "Site", rWs1, rStrCI "Class", rWs0, rEqColon, rWs0, rClassAF, .wordB],
    reSeq [rStrCI "Site", rWs1, rStrCI "Classification", rWs0, rEqColon, rWs0, rClassAF, .wordB],
    reSeq [rStrCI "ASCE", rWs1, rCh '7', rLazyStar rDot, rStrCI "Site", rWs1,
           rStrCI "Class", rWs0, rEqColon, rWs0, rClassAF, .wordB],
    reSeq [rStrCI "Seismic", rWs1, rStrCI "Site", rWs1, rStrCI "Class", rWs0,
           rEqColon, rWs0, rClassAF, .wordB],
    reSeq [rStrCI "The", rWs1, rStrCI "site", rWs1, rStrCI "class", rWs1,
           rStrCI "is", rWs1, rClassAF, .wordB] ]

/-- Pattern list for `riskCategory`. -/
def riskCategoryPatterns : List RE :=
  [ reSeq [rStrCI "RISK", rWs1, rStrCI "CATEGORY", rCh ':', rWs0, rRoman, .wordB],
    reSeq [rStrCI "Risk", rWs1, rStrCI "Category", rWs0, rEqColon, rWs0, rRoman, .wordB],
    reSeq [rStrCI "Seismic", rWs1, rStrCI "Risk", rWs1, rStrCI "Category", rWs0,
           rEqColon, rWs0, rRoman, .wordB],
    reSeq [rStrCI "ASCE", rWs1, rCh '7', rLazyStar rDot, rStrCI "Risk", rWs1,
           rStrCI "Category", rWs0, rEqColon, rWs0, rRoman, .wordB],
    reSeq [rStrCI "Occupancy", rWs1, rStrCI "Category", rWs0, rEqColon, rWs0, rRoman, .wordB],
    reSeq [rStrCI "The", rWs1, rStrCI "risk", rWs1, rStrCI "category", rWs1,
           rStrCI "is", rWs1, rRoman, .wordB] ]

/-- Pattern list for `seismicDesignCategory`. -/
def sdcPatterns : List RE :=
  [ reSeq [rStrCI "Seismic", rWs1, rStrCI "Design", rWs1, rStrCI "Category", rWs1,
           rStrCI "for", rWs1, rStrCI "Risk", rWs1, rStrCI "Category",
           rLazyStar (.cls (fun c => !(c == ',' || c == '\n'))), rClassAF, .wordB],
    reSeq [rStrCI "SEISMIC", rWs1, rStrCI "DESIGN", rWs1, rStrCI "CATEGORY", rCh ':',
           rWs0, rClassAF, .wordB],
    reSeq [rStrCI "Seismic", rWs1, rStrCI "Design", rWs1, rStrCI "Category", rWs1,
           rClassAF, .wordB],
    reSeq [rStrCI "Seismic", rWs1, rStrCI "Design", rWs1, rStrCI "Category", rWs0,
           rEqColon, rWs0, rClassAF, .wordB],
    reSeq [rStrCI "SDC", rWs0, rEqColon, rWs0, rClassAF, .wordB] ]

/-- `SEISMIC_PATTERNS`, transcribed entry by entry from geotechPatterns.js. -/
def SEISMIC_PATTERNS : SKey → SeismicConfig
  | .Sds =>
    { label := "Sds", fullName := "Design Spectral Response Acceleration (Short Period)",
      patterns := sdsPatterns, type := "numeric" }
  | .Sd1 =>
    { label := "Sd1", fullName := "Design Spectral Response Acceleration (1-Second)",
      patterns := sd1Patterns, type := "numeric" }
  | .Sms =>
    { label := "Sms", fullName := "Site-Modified MCER Spectral Response (Short Period)",
      patterns := smsPatterns, type := "numeric" }
  | .Sm1 =>
    { label := "Sm1", fullName := "Site-Modified MCER Spectral Response (1-Second)",
      patterns := sm1Patterns, type := "numeric" }
  | .Ss =>
    { label := "Ss", fullName := "MCER Spectral Response Acceleration (Short Period)",
      patterns := ssPatterns, type := "numeric" }
  | .S1 =>
    { label := "S1", fullName := "MCER Spectral Response Acceleration (1-Second)",
      patterns := s1Patterns, type := "numeric" }
  | .Fa =>
    { label := "Fa", fullName := "Site Coefficient (Short Period)",
      patterns := faPatterns, type := "numeric" }
  | .Fv =>
    { label := "Fv", fullName := "Site Coefficient (1-Second)",
      patterns := fvPatterns, type := "numeric" }
  | .siteClass =>
    { label := "Site Class", fullName := "Site Classification",
      patterns := siteClassPatterns, type := "category",
      validValues := some ["A", "B", "C", "D", "E", "F"] }
  | .riskCategory =>
    { label := "Risk Category", fullName := "Risk Category",
      patterns := riskCategoryPatterns, type := "category",
      validValues := some ["I", "II", "III", "IV"] }
  | .seismicDesignCategory =>
    { label := "SDC", fullName := "Seismic Design Category",
      patterns := sdcPatterns, type := "category",
      validValues := some ["A", "B", "C", "D", "E", "F"] }

/-- `normalizeValue` of geotechPatterns.js: numeric values are re-parsed and
re-stringified through the double type; category values uppercased then
trimmed. -/
def normalizeValue (value : String) (ty : String) : String :=
  if ty = "numeric" then
    match jsParseFloat value with
    | none => value
    | some q => jsNumToString q
  else if ty = "category" then jsTrim (toUpperStr value)
  else jsTrim value

/-- `valuesMatch` of geotechPatterns.js.  The numeric branch performs the
binary64 computation `Math.abs(num1 - num2) <= 0.005` exactly: the operands
are the doubles produced by `parseFloat`, the subtraction is correctly
rounded, and `0.005` denotes the double nearest to 1/200. -/
def valuesMatch (value1 value2 : String) (ty : String) : Bool :=
  if ty = "numeric" then
    match jsParseFloat value1, jsParseFloat value2 with
    | some n1, some n2 => decide (|rnd52 (n1 - n2)| ≤ rnd52 (5 / 1000))
    | _, _ => false
  else if ty = "category" then jsTrim (toUpperStr value1) == jsTrim (toUpperStr value2)
  else jsTrim value1 == jsTrim value2

/-! ## Geotech extractor (geotechExtractor.js) -/

/-- A positioned drawing text item as used by `findParameterPosition`
(`item.text`, `item.x`, ... with `|| 0` defaults folded in). -/
structure PosItem where
  text : String
  x : ℚ
  y : ℚ
  width : ℚ
  height : ℚ
deriving DecidableEq, Repr

/-- One page of extracted text.  `items` carries the positioned text items of
a drawing page (absent for geotech report pages). -/
structure PageText where
  pageNumber : Nat
  fullText : String
  items : Option (List PosItem) := none

/-- The per-parameter record `extractSeismicValues` initialises and fills. -/
structure ExtractedEntry where
  label : String
  fullName : String
  value : Option String
  pageNumber : Option Nat
  confidence : ℚ
  type : String
deriving DecidableEq, Repr

/-- `calculateConfidence`: base 0.5, +0.3 when the label occurs in the match,
+0.2 when the match contains `=` or `:`, capped at 1. -/
def calculateConfidence (matchedText label : String) : ℚ :=
  let c1 : ℚ := 1 / 2
  let c2 := if strContains (toLowerStr matchedText) (toLowerStr label) then c1 + 3 / 10 else c1
  let c3 := if strContains matchedText "=" || strContains matchedText ":" then c2 + 2 / 10 else c2
  min c3 1

/-- Context priority of a match inside `extractSeismicValues`: the ±100
character window around `match.index`, uppercased; "SITE SPECIFIC" beats
windows free of "ASCE"/"SECTION 11", which beat ASCE windows. -/
def contextPriority (fullText : String) (idx : Nat) : ℤ :=
  let cs := fullText.toList
  let contextStart := idx - 100
  let contextEnd := min cs.length (idx + 100)
  let context := String.mk (((cs.drop contextStart).take (contextEnd - contextStart)).map Char.toUpper)
  if strContains context "SITE SPECIFIC" || strContains context "SITE-SPECIFIC" then 2
  else if !strContains context "ASCE" && !strContains context "SECTION 11" then 1
  else 0

/-- The best-match fold of `extractSeismicValues`: skip falsy captures and
invalid category values, then keep the first match of the highest priority
(strict `priority > bestPriority` keeps the first seen on ties). -/
def selectBestAux (cfg : SeismicConfig) (fullText : String) :
    List JsMatch → Option JsMatch → ℤ → Option JsMatch
  | [], best, _ => best
  | m :: ms, best, bestP =>
    match m.group1 with
    | none => selectBestAux cfg fullText ms best bestP
    | some raw =>
      if raw.isEmpty then selectBestAux cfg fullText ms best bestP
      else
        let invalid :=
          cfg.type == "category" &&
            (match cfg.validValues with
             | some vv => !(vv.contains (jsTrim (toUpperStr raw)))
             | none => false)
        if invalid then selectBestAux cfg fullText ms best bestP
        else
          let priority := contextPriority fullText m.index
          if bestP < priority then selectBestAux cfg fullText ms (some m) priority
          else selectBestAux cfg fullText ms best bestP

/-- Page loop for one pattern: first page where the pattern yields a match
with an accepted best candidate wins.  (The JS guard `matches.length > 0` is
subsumed: an empty match list makes the best-match fold return `null`, and
both paths continue with the next page.) -/
def tryPatternPages (cfg : SeismicConfig) (pat : RE) : List PageText → Option (String × Nat × ℚ)
  | [] => none
  | pg :: rest =>
    match selectBestAux cfg pg.fullText (reMatchAll pat pg.fullText) none (-1) with
    | some bm =>
      some (normalizeValue (bm.group1.getD "") cfg.type, pg.pageNumber,
            calculateConfidence bm.matched cfg.label)
    | none => tryPatternPages cfg pat rest

/-- Pattern loop for one parameter: stop at the first pattern that produced a
value. -/
def tryPatternList (cfg : SeismicConfig) (pages : List PageText) : List RE → Option (String × Nat × ℚ)
  | [] => none
  | p :: ps =>
    match tryPatternPages cfg p pages with
    | some r => some r
    | none => tryPatternList cfg pages ps

/-- The per-key body of `extractSeismicValues`: the "not found" record, filled
in when some pattern matches on some page. -/
def extractEntryFor (pages : List PageText) (key : SKey) : ExtractedEntry :=
  let cfg := SEISMIC_PATTERNS key
  match tryPatternList cfg pages cfg.patterns with
  | some r =>
    { label := cfg.label, fullName := cfg.fullName, value := some r.1,
      pageNumber := some r.2.1, confidence := r.2.2, type := cfg.type }
  | none =>
    { label := cfg.label, fullName := cfg.fullName, value := none,
      pageNumber := none, confidence := 0, type := cfg.type }

/-- `extractSeismicValues`: the extracted-values object, in key insertion
order. -/
def extractSeismicValues (pages : List PageText) : List (SKey × ExtractedEntry) :=
  seismicKeys.map (fun k => (k, extractEntryFor pages k))

/-! ## General-notes section finder and notes comparison -/

/-- The heading pattern list of `findGeneralNotesSection` (all `/gi`). -/
def headingPatterns : List RE :=
  [ reSeq [rStrCI "LATERAL", rWs1, rStrCI "LOADS", rWs1, rStrCI "SEISMIC", rCh ':'],
    reSeq [rStrCI "SEISMIC", rCh ':'],
    reSeq [rStrCI "GENERAL", rWs1, rStrCI "NOTE", .opt (rChCI 'S')],
    reSeq [rStrCI "GEN", rCh '.', rWs1, rStrCI "NOTE", .opt (rChCI 'S')],
    reSeq [rStrCI "STRUCTURAL", rWs1, rStrCI "NOTE", .opt (rChCI 'S')],
    reSeq [rStrCI "SEISMIC", rWs1, rStrCI "DESIGN", rWs1, rStrCI "CRITERIA"] ]

/-- Result record of `findGeneralNotesSection`. -/
structure NotesSection where
  pageNumber : Nat
  text : String
  startIndex : Option Nat
  fallback : Bool := false
deriving DecidableEq, Repr

/-- Heading search on one page.  Note the JS behaviour being modelled: every
heading pattern carries the `g` flag, so `page.fullText.match(pattern)`
returns an array of matched strings without an `index` property;
`match.index` is therefore `undefined` and
`fullText.substring(undefined, undefined + 2000)` is `substring(0, NaN)`,
which is the empty string.  A found heading hence yields `text = ""` and an
undefined (`none`) `startIndex`. -/
def findNotesInPage (pg : PageText) : List RE → Option NotesSection
  | [] => none
  | p :: ps =>
    if reTest p pg.fullText then
      some { pageNumber := pg.pageNumber, text := "", startIndex := none }
    else findNotesInPage pg ps

/-- Page loop of `findGeneralNotesSection` (without the fallback). -/
def findNotesAux : List PageText → Option NotesSection
  | [] => none
  | pg :: rest =>
    match findNotesInPage pg headingPatterns with
    | some ns => some ns
    | none => findNotesAux rest

/-- `findGeneralNotesSection`: first page with a heading, else the whole first
page as a flagged fallback, else `none` for an empty document. -/
def findGeneralNotesSection (pages : List PageText) : Option NotesSection :=
  match findNotesAux pages with
  | some ns => some ns
  | none =>
    match pages with
    | pg :: _ => some { pageNumber := pg.pageNumber, text := pg.fullText,
                        startIndex := some 0, fallback := true }
    | [] => none

/-- Comparison record shapes of `compareValuesInNotes`. -/
structure MatchRec where
  parameter : SKey
  label : String
  value : String
  foundValue : String
deriving DecidableEq, Repr

structure MisRec where
  parameter : SKey
  label : String
  expectedValue : String
  foundValue : String
deriving DecidableEq, Repr

structure MissingRec where
  parameter : SKey
  label : String
  expectedValue : String
deriving DecidableEq, Repr

structure CompareResults where
  «matches» : List MatchRec
  mismatches : List MisRec
  missing : List MissingRec
deriving DecidableEq, Repr

/-- The notes-search loop of `compareValuesInNotes`: first pattern with at
least one match yields the normalised first capture. -/
def findInNotes (cfg : SeismicConfig) (notesText : String) : List RE → Option String
  | [] => none
  | p :: ps =>
    match reMatchAll p notesText with
    | [] => findInNotes cfg notesText ps
    | m :: _ => some (normalizeValue (m.group1.getD "") cfg.type)

/-- `compareValuesInNotes`.  When a parameter with an expected value is found
in the notes, control reaches
`const { valuesMatch } = require('./geotechPatterns.js')`; this file is an ES
module (it uses `import`/`export`), so `require` is undefined and the
statement throws `ReferenceError: require is not defined` — the
`valuesMatch` comparison and the `matches`/`mismatches` pushes behind it are
unreachable.  Parameters without a (truthy) expected value are skipped;
not-found parameters land in `missing`. -/
def compareValuesInNotes (notesText : String) :
    List (SKey × ExtractedEntry) → Except String CompareResults
  | [] => .ok ⟨[], [], []⟩
  | (key, exp) :: rest =>
    match exp.value with
    | none => compareValuesInNotes notesText rest
    | some v =>
      if v.isEmpty then compareValuesInNotes notesText rest
      else
        let cfg := SEISMIC_PATTERNS key
        match findInNotes cfg notesText cfg.patterns with
        | some _ => .error "require is not defined"
        | none =>
          match compareValuesInNotes notesText rest with
          | .error e => .error e
          | .ok r => .ok { r with missing := ⟨key, exp.label, v⟩ :: r.missing }

/-! ## Geotech verification detector (geotechVerification.js) -/

/-- Search-term lists of `findParameterPosition`. -/
def searchTermsFor (parameterKey : SKey) : List String :=
  match parameterKey with
  | .Sds => ["SDS", "S_DS", "S DS"]
  | .Sd1 => ["SD1", "S_D1", "S D1"]
  | .Sms => ["SMS", "S_MS", "S MS"]
  | .Sm1 => ["SM1", "S_M1", "S M1"]
  | .Ss => ["SS", "S_S", "S S", "Ss"]
  | .S1 => ["S1", "S_1", "S 1"]
  | .Fa => ["FA", "F_A", "F A"]
  | .Fv => ["FV", "F_V", "F V"]
  | .siteClass => ["SITE CLASS", "Site Class", "SITE", "CLASS"]
  | .riskCategory => ["RISK CATEGORY", "Risk Category", "RISK"]
  | .seismicDesignCategory =>
    ["SEISMIC DESIGN CATEGORY", "Seismic Design Category", "SDC", "CATEGORY"]

/-- The value-token regex `/[\d\.]+|[A-F]|I{1,3}|IV/` (no flags, so case
sensitive), used with `.test`. -/
def valueTokenPat : RE :=
  .alt (rPlus (.cls (fun c => c.isDigit || c == '.')))
    (.alt (.cls (fun c => decide ('A' ≤ c) && decide (c ≤ 'F')))
      (.alt (rRep 1 3 (rCh 'I')) (reSeq [rCh 'I', rCh 'V'])))

/-- An approximate highlight box. -/
structure PPos where
  x : ℚ
  y : ℚ
  width : ℚ
  height : ℚ
deriving DecidableEq, Repr

/-- The widened lookahead of `findParameterPosition`: scan the following
items (`j` from `i+1` while `j < i+10`, i.e. at most nine of them) for value
tokens, extending the right edge and the height. -/
def lookAhead (item : PosItem) (next9 : List PosItem) : PPos :=
  let st := next9.foldl
    (fun (acc : ℚ × ℚ) nxt =>
      if reTest valueTokenPat nxt.text then
        let rightEdge := nxt.x + nxt.width
        (if acc.1 < rightEdge then rightEdge else acc.1, max acc.2 nxt.height)
      else acc)
    (item.x + item.width, item.height)
  { x := item.x, y := item.y, width := max (st.1 - item.x) 100, height := max st.2 20 }

/-- Item scan for one search term (first item whose uppercased text contains
the uppercased term). -/
def findTermAux (term : String) : List PosItem → Option PPos
  | [] => none
  | item :: rest =>
    if strContains (toUpperStr item.text) (toUpperStr term) then
      some (lookAhead item (rest.take 9))
    else findTermAux term rest

/-- `findParameterPosition` (the `label`/`config` arguments of the JS
function are unused there beyond logging). -/
def findParameterPosition (textItems : List PosItem) (parameterKey : SKey) : Option PPos :=
  (searchTermsFor parameterKey).foldr
    (fun t acc => match findTermAux t textItems with
      | some p => some p
      | none => acc)
    none

/-- Located match/mismatch records of the final result. -/
structure LocMatchRec where
  parameter : SKey
  label : String
  value : String
  foundValue : String
  x : ℚ
  y : ℚ
  width : ℚ
  height : ℚ
deriving DecidableEq, Repr

structure LocMisRec where
  parameter : SKey
  label : String
  expectedValue : String
  foundValue : String
  x : ℚ
  y : ℚ
  width : ℚ
  height : ℚ
deriving DecidableEq, Repr

/-- Result shape of `detectGeotechMismatches`.  `notesPageNumber` is absent
(`none`) in all early-return and error results. -/
structure GeoResult where
  detected : Bool
  count : ℕ
  «matches» : List LocMatchRec
  mismatches : List LocMisRec
  missing : List MissingRec
  notesPageNumber : Option Nat := none
  message : String
deriving DecidableEq, Repr

/-- The uploaded geotech report data as consumed by the verifier. -/
structure GeotechData where
  extractedValues : Option (List (SKey × ExtractedEntry))

/-- A zero-count `GeoResult` with a message. -/
def zeroGeo (msg : String) : GeoResult :=
  { detected := false, count := 0, «matches» := [], mismatches := [], missing := [],
    notesPageNumber := none, message := msg }

/-- `detectGeotechMismatches`.  The whole body after the two guards sits in a
`try`/`catch`, and the only throwing statement is the `require` call inside
`compareValuesInNotes`, so the function never rejects: every abnormal
condition is represented in the returned record (the `catch` branch produces
the `Verification error: ...` message). -/
def detectGeotechMismatches (imageData : String) (geotechData : Option GeotechData)
    (pdfPages : Option (List PageText)) : GeoResult :=
  match geotechData with
  | none => zeroGeo "No geotechnical report data available for verification"
  | some gd =>
    match gd.extractedValues with
    | none => zeroGeo "No geotechnical report data available for verification"
    | some evs =>
      match pdfPages with
      | none => zeroGeo "Text verification requires PDF upload (images not supported)"
      | some [] => zeroGeo "Text verification requires PDF upload (images not supported)"
      | some (p0 :: ps) =>
        match findGeneralNotesSection (p0 :: ps) with
        | none => zeroGeo "GENERAL NOTES section not found in drawing"
        | some ns =>
          match compareValuesInNotes ns.text evs with
          | .error e => zeroGeo ("Verification error: " ++ e)
          | .ok comparison =>
            let totalIssues := comparison.mismatches.length + comparison.missing.length
            let pdfTextItems := p0.items.getD []
            let SCALE : ℚ := 3
            let matchesWithLocations := comparison.«matches».filterMap (fun m =>
              match findParameterPosition pdfTextItems m.parameter with
              | some pos =>
                some { parameter := m.parameter, label := m.label, value := m.value,
                       foundValue := m.foundValue, x := pos.x * SCALE, y := pos.y * SCALE,
                       width := pos.width * SCALE, height := pos.height * SCALE }
              | none => none)
            let mismatchesWithLocations := comparison.mismatches.filterMap (fun m =>
              match findParameterPosition pdfTextItems m.parameter with
              | some pos =>
                some { parameter := m.parameter, label := m.label,
                       expectedValue := m.expectedValue, foundValue := m.foundValue,
                       x := pos.x * SCALE, y := pos.y * SCALE,
                       width := pos.width * SCALE, height := pos.height * SCALE }
              | none => none)
            { detected := decide (0 < totalIssues)
              count := totalIssues
              «matches» := matchesWithLocations
              mismatches := mismatchesWithLocations
              missing := comparison.missing
              notesPageNumber := some ns.pageNumber
              message :=
                if 0 < totalIssues then
                  "Found " ++ toString comparison.mismatches.length ++ " mismatch(es) and " ++
                    toString comparison.missing.length ++ " missing value(s)"
                else
                  "All " ++ toString comparison.«matches».length ++
                    " seismic value(s) verified successfully" }

/-! ## PDF page model shared by the text-driven detectors -/

/-- A transform array `[t0 .. t5]` as indexed by the JS (`transform[0]`,
`transform[3]`, `transform[4]`, `transform[5]`). -/
structure TMat where
  t0 : ℚ
  t1 : ℚ
  t2 : ℚ
  t3 : ℚ
  t4 : ℚ
  t5 : ℚ
deriving DecidableEq, Repr

/-- A PDF text item: string, font/position transform, width, height. -/
structure TextItem where
  str : String
  transform : TMat
  width : ℚ
  height : ℚ
deriving DecidableEq, Repr

/-- A page viewport: scale and the affine transform (plus the raw size,
used only by the legacy code paths). -/
structure Viewport where
  scale : ℚ
  transform : TMat
  width : ℚ := 0
  height : ℚ := 0
deriving DecidableEq, Repr

/-- A PDF page handed to the text-driven detectors; `textItems` is `none`
when no PDF data is available (image-only input). -/
structure PdfPage where
  textItems : Option (List TextItem)
  viewport : Viewport
deriving DecidableEq, Repr

/-- The uniform analyzer result record. -/
structure DetectionResult where
  detected : Bool
  count : ℕ
  locations : List Region
  message : String
deriving DecidableEq, Repr

/-! ## Missing-reference detector (noRefs.js, PDF text version) -/

/-- The missing-reference pattern (no flags): one to four dashes, a slash,
one to four dashes, optionally one of `.` `,` `;` `:`, anchored both ends. -/
def noRefPattern : RE :=
  reSeq [rRep 1 4 (rCh '-'), rCh '/', rRep 1 4 (rCh '-'), .opt (rAnyOf ['.', ',', ';', ':'])]

/-- The region built for one matched item: apply the viewport transform to the
item position, scale width/height, and shift the top edge up by the scaled
height.  The JS object has no `pixelCount` (such regions are never merged), so
the field keeps its default. -/
def noRefRegion (vp : Viewport) (item : TextItem) : Region :=
  let canvasX := vp.transform.t0 * item.transform.t4 + vp.transform.t4
  let canvasY := vp.transform.t3 * item.transform.t5 + vp.transform.t5
  let w : ℤ := ⌈item.width * vp.scale⌉
  let h : ℤ := ⌈item.height * vp.scale⌉
  { x := (⌊canvasX⌋ : ℤ), y := ((⌊canvasY⌋ - h : ℤ) : ℚ), width := (w : ℚ), height := (h : ℚ),
    pixelCount := 0, text := some (jsTrim item.str),
    detectionMethod := some "pdf-text", isCanvasCoords := true }

/-- `detectNoRefsFromPDF`: one region per text item whose trimmed string fully
matches the pattern. -/
def detectNoRefsFromPDF (pdfPage : Option PdfPage) : List Region :=
  match pdfPage with
  | none => []
  | some pg =>
    match pg.textItems with
    | none => []
    | some items =>
      items.filterMap (fun item =>
        if reTestFull noRefPattern (jsTrim item.str) then some (noRefRegion pg.viewport item)
        else none)

/-- `detectNoRefs` (final PDF-only version): the resolved `DetectionResult`.
The unused `imageData` argument of the JS signature is dropped since this
version never touches the image. -/
def detectNoRefs (pdfPage : Option PdfPage) : DetectionResult :=
  let elements := detectNoRefsFromPDF pdfPage
  { detected := decide (0 < elements.length)
    count := elements.length
    locations := elements
    message :=
      if 0 < elements.length then
        "Found " ++ toString elements.length ++ " missing reference(s) (-/---)"
      else "No missing references detected" }

/-! ## Overlapping-text detector, PDF text method (overlappingText.js) -/

/-- `isLikelyText`. -/
def isLikelyText (item : TextItem) : Bool :=
  let text := jsTrim item.str
  if text.isEmpty then false
  else if text.length == 1 && !reTest (.cls Char.isAlphanum) text then false
  else if decide (item.height < 4) || decide (item.width < 4) then false
  else if decide (|item.transform.t0| < 4) then false
  else true

/-- `/^\d{3}[A-Z]{1,2}\d{3}$/i`. -/
def standalonePat : RE :=
  reSeq [rRep 3 3 rDigit,
         rRep 1 2 (.cls (fun c => decide ('A' ≤ c.toUpper) && decide (c.toUpper ≤ 'Z'))),
         rRep 3 3 rDigit]

/-- `isStandaloneDetailReference`. -/
def isStandaloneDetailReference (text : String) : Bool := reTestFull standalonePat text

/-- `isBubbleNumber` (`/^[0-9A-Z]$/i`). -/
def isBubbleNumber (text : String) : Bool :=
  reTestFull (.cls (fun c => c.isDigit || (decide ('A' ≤ c.toUpper) && decide (c.toUpper ≤ 'Z')))) text

/-- A callout-bubble exclusion zone. -/
structure Bubble where
  x : ℚ
  y : ℚ
  width : ℚ
  height : ℚ
  centerX : ℚ
  centerY : ℚ
  radius : ℚ
deriving DecidableEq, Repr

/-- `findCalloutBubbles`: every standalone detail reference anchors a zone
extended upward by twice the text height and padded by half the larger
dimension. -/
def findCalloutBubbles (textItems : List TextItem) : List Bubble :=
  textItems.filterMap (fun item =>
    let text := jsTrim item.str
    if isStandaloneDetailReference text then
      let x := item.transform.t4
      let y := item.transform.t5
      let width := item.width
      let height := item.height
      let padding := max width height * (1 / 2)
      some { x := x - padding, y := y - height * 2,
             width := width + padding * 2, height := height * 3,
             centerX := x + width / 2, centerY := y - height * (1 / 2),
             radius := max width (height * 2) }
    else none)

/-- `isInsideBubble`: the region center is inside some bubble box, or within
the bubble radius of its center.  `Math.sqrt(dx*dx+dy*dy) < radius` is
rendered by the equivalent exact comparison of squares (for positive radius;
a non-positive radius can never exceed the non-negative root). -/
def isInsideBubble (x y width height : ℚ) (bubbles : List Bubble) : Bool :=
  let centerX := x + width / 2
  let centerY := y + height / 2
  bubbles.any (fun bubble =>
    (decide (bubble.x ≤ centerX) && decide (centerX ≤ bubble.x + bubble.width) &&
     decide (bubble.y ≤ centerY) && decide (centerY ≤ bubble.y + bubble.height)) ||
    (let dx := centerX - bubble.centerX
     let dy := centerY - bubble.centerY
     decide (0 < bubble.radius) && decide (dx * dx + dy * dy < bubble.radius * bubble.radius)))

/-- `isFalsePositiveOverlap`: both trimmed texts of length ≤ 2. -/
def isFalsePositiveOverlap (item1 item2 : TextItem) : Bool :=
  decide ((jsTrim item1.str).length ≤ 2) && decide ((jsTrim item2.str).length ≤ 2)

/-- The overlap test and region construction for one pair of items (the body
of the inner `j` loop after the skip conditions). -/
def overlapOfPair (vt : TMat) (scale : ℚ) (item1 item2 : TextItem) : Option Region :=
  let b1x := item1.transform.t4
  let b1y := item1.transform.t5
  let b2x := item2.transform.t4
  let b2y := item2.transform.t5
  let horizontalOverlap := !(decide (b1x + item1.width < b2x) || decide (b2x + item2.width < b1x))
  let verticalOverlap := !(decide (b1y + item1.height < b2y) || decide (b2y + item2.height < b1y))
  if horizontalOverlap && verticalOverlap then
    let overlapX := max b1x b2x
    let overlapY := max b1y b2y
    let overlapWidth := min (b1x + item1.width) (b2x + item2.width) - overlapX
    let overlapHeight := min (b1y + item1.height) (b2y + item2.height) - overlapY
    if decide (5 < overlapWidth) && decide (5 < overlapHeight) then
      let canvasX := vt.t0 * overlapX + vt.t4
      let canvasY := vt.t3 * overlapY + vt.t5
      let scaledHeight : ℤ := ⌈overlapHeight * scale⌉
      some { x := (⌊canvasX⌋ : ℤ), y := ((⌊canvasY⌋ - scaledHeight : ℤ) : ℚ),
             width := ((⌈overlapWidth * scale⌉ : ℤ) : ℚ), height := (scaledHeight : ℚ),
             pixelCount := ((⌈overlapWidth * overlapHeight * scale * scale⌉ : ℤ) : ℚ),
             text1 := some item1.str, text2 := some item2.str,
             detectionMethod := some "pdf-text", isCanvasCoords := true }
    else none
  else none

/-- Inner `j` loop: pair `item1` with each later item, skipping items inside a
bubble and short-short pairs; the whole loop is skipped when `item1` itself is
inside a bubble. -/
def pairsFrom (vt : TMat) (scale : ℚ) (bubbles : List Bubble)
    (item1 : TextItem) (rest : List TextItem) : List Region :=
  if isInsideBubble item1.transform.t4 item1.transform.t5 item1.width item1.height bubbles then []
  else rest.filterMap (fun item2 =>
    if isInsideBubble item2.transform.t4 item2.transform.t5 item2.width item2.height bubbles then none
    else if isFalsePositiveOverlap item1 item2 then none
    else overlapOfPair vt scale item1 item2)

/-- Outer `i` loop over the filtered items. -/
def pairLoop (vt : TMat) (scale : ℚ) (bubbles : List Bubble) : List TextItem → List Region
  | [] => []
  | item1 :: rest => pairsFrom vt scale bubbles item1 rest ++ pairLoop vt scale bubbles rest

/-- `detectOverlapsFromPDF`: filter to likely text, build bubbles from the
unfiltered items, and run the pairwise loop. -/
def detectOverlapsFromPDF (pdfPage : Option PdfPage) : List Region :=
  match pdfPage with
  | none => []
  | some pg =>
    match pg.textItems with
    | none => []
    | some allItems =>
      pairLoop pg.viewport.transform pg.viewport.scale (findCalloutBubbles allItems)
        (allItems.filter isLikelyText)

/-! ## Pixel pipelines: flood-fill tracer and classifiers -/

/-- An RGBA page raster: `data` is the flat channel array (index
`(y*width+x)*4` for red, `+1` green, `+2` blue). -/
structure ImageData where
  data : ℕ → ℕ
  width : ℕ
  height : ℕ

/-- Integer box produced by a pixel trace (the JS trace-result object before
its annotation fields are considered). -/
structure PixBox where
  x : ℤ
  y : ℤ
  width : ℤ
  height : ℤ
  pixelCount : ℕ
deriving DecidableEq, Repr

/-- Trace result plus the updated (shared, JS-mutable) visited set. -/
structure TraceOut where
  box : PixBox
  visited : List (ℤ × ℤ)

/-- The black-pixel predicate (`r < 80 && g < 80 && b < 80`). -/
def isBlackPx (r g b : ℕ) : Bool :=
  decide (r < 80) && decide (g < 80) && decide (b < 80)

/-- The reddish predicate of redElements.js.  The float products `g*1.3` etc.
are modelled by exact rational products: for channel values in `0..255` the
float comparison and the exact comparison agree (the float rounding error is
far below the distance of `1.3*g` from the nearest other integer). -/
def isReddish (r g b : ℕ) : Bool :=
  (decide (150 < r) && decide ((g : ℚ) * (13 / 10) < (r : ℚ)) && decide ((b : ℚ) * (13 / 10) < (r : ℚ))) ||
  (decide (100 < r) && decide ((g : ℚ) * (3 / 2) < (r : ℚ)) && decide ((b : ℚ) * (3 / 2) < (r : ℚ)) &&
    decide (50 < r)) ||
  (decide (80 < r) && decide (g * 2 < r) && decide (b * 2 < r))

/-- The highlight predicate of highlights.js (desaturated mid-gray band or one
of four saturated hue rules). -/
def isHighlightPx (r g b : ℕ) : Bool :=
  let avg : ℚ := ((r : ℚ) + (g : ℚ) + (b : ℚ)) / 3
  let maxDiff : ℤ := max |(r : ℤ) - (g : ℤ)| (max |(g : ℤ) - (b : ℤ)| |(r : ℤ) - (b : ℤ)|)
  let isGreyHighlight := decide (maxDiff < 40) && decide ((120 : ℚ) < avg) && decide (avg < 180)
  let isColorHighlight :=
    (decide (200 < r) && decide (200 < g) && decide (b < 150)) ||
    (decide (r < 150) && decide (200 < g) && decide (b < 150)) ||
    (decide (r < 150) && decide (g < 150) && decide (200 < b)) ||
    (decide (200 < r) && decide (g < 150) && decide (200 < b))
  isGreyHighlight || isColorHighlight

/-- The BFS flood-fill loop shared by `traceElement` / `traceHighlightedArea`
/ `traceBlackRegion` (they differ only in predicate and pixel cap):
`while (queue.length > 0 && pixelCount < cap)`, popping the queue head,
skipping visited / out-of-bounds coordinates, and growing bounds and the
4-neighbour frontier on predicate pixels. -/
def traceLoop (pred : ℕ → ℕ → ℕ → Bool) (cap : ℕ) (data : ℕ → ℕ) (width height : ℕ) :
    List (ℤ × ℤ) → List (ℤ × ℤ) → ℤ → ℤ → ℤ → ℤ → ℕ → TraceOut
  | [], visited, minX, maxX, minY, maxY, pc =>
    ⟨⟨minX, minY, maxX - minX, maxY - minY, pc⟩, visited⟩
  | (x, y) :: rest, visited, minX, maxX, minY, maxY, pc =>
    if cap ≤ pc then ⟨⟨minX, minY, maxX - minX, maxY - minY, pc⟩, visited⟩
    else if visited.contains (x, y) || decide (x < 0) || decide ((width : ℤ) ≤ x) ||
        decide (y < 0) || decide ((height : ℤ) ≤ y) then
      traceLoop pred cap data width height rest visited minX maxX minY maxY pc
    else
      let idx := (y.toNat * width + x.toNat) * 4
      if pred (data idx) (data (idx + 1)) (data (idx + 2)) then
        traceLoop pred cap data width height
          (rest ++ [(x + 1, y), (x - 1, y), (x, y + 1), (x, y - 1)])
          ((x, y) :: visited) (min minX x) (max maxX x) (min minY y) (max maxY y) (pc + 1)
      else
        traceLoop pred cap data width height rest visited minX maxX minY maxY pc
termination_by queue _ _ _ _ _ pc => (cap - pc, queue.length)

/-- Start a trace at a seed coordinate (bounds initialised to the seed,
`pixelCount = 0`, queue seeded with the start point). -/
def traceFrom (pred : ℕ → ℕ → ℕ → Bool) (cap : ℕ) (data : ℕ → ℕ) (width height : ℕ)
    (startX startY : ℕ) (visited : List (ℤ × ℤ)) : TraceOut :=
  traceLoop pred cap data width height [((startX : ℤ), (startY : ℤ))] visited
    startX startX startY startY 0

/-! ## Overlapping-text pixel method -/

/-- Integer range `[a, b)` as a list. -/
def intRange (a b : ℤ) : List ℤ := (List.range (b - a).toNat).map (fun i => a + i)

/-- Integer range `[a, b)` with a positive step. -/
def intRangeStep (a b : ℤ) (step : ℕ) : List ℤ :=
  (List.range (((b - a).toNat + step - 1) / step)).map (fun i => a + i * step)

/-- Nat scan positions `0, step, 2*step, ... < stop` of the seed loops. -/
def stepRange (stop step : ℕ) : List ℕ :=
  (List.range ((stop + step - 1) / step)).map (fun i => i * step)

/-- Check the black predicate at integer coordinates (callers stay in
bounds, matching the JS loops' guards). -/
def blackAt (data : ℕ → ℕ) (width : ℕ) (x y : ℤ) : Bool :=
  let idx := (y.toNat * width + x.toNat) * 4
  isBlackPx (data idx) (data (idx + 1)) (data (idx + 2))

/-- `calculateDensity`: fraction of black pixels inside the element box,
clipped to the image.  An empty box gives `0/0`, which is `NaN` in JS and `0`
here; in both cases `isOverlappingText` then rejects the element (JS at the
height check, this model at the density check), so the classifier agrees. -/
def calculateDensity (data : ℕ → ℕ) (width height : ℕ) (el : PixBox) : ℚ :=
  let rows := intRange el.y (min (el.y + el.height) (height : ℤ))
  let cols := intRange el.x (min (el.x + el.width) (width : ℤ))
  let blackCount := rows.foldl (fun acc y =>
    cols.foldl (fun acc x => if blackAt data width x y then acc + 1 else acc) acc) 0
  let totalCount := rows.length * cols.length
  (blackCount : ℚ) / (totalCount : ℚ)

/-- Black/white transition count of one sampled scanline (step 2 in x). -/
def lineTransitions (data : ℕ → ℕ) (width : ℕ) (el : PixBox) (y : ℤ) : ℕ :=
  let xs := intRangeStep el.x (min (el.x + el.width) (width : ℤ)) 2
  (xs.foldl (fun (acc : ℕ × Bool) x =>
    let isB := blackAt data width x y
    (if isB != acc.2 then acc.1 + 1 else acc.1, isB)) (0, false)).1

/-- `isOverlappingText`: density in (0.32, 0.7), text-like aspect ratio and
dimensions, and at least three of up to five sampled scanlines showing six or
more black/white transitions. -/
def isOverlappingText (data : ℕ → ℕ) (width height : ℕ) (el : PixBox) : Bool :=
  let density := calculateDensity data width height el
  if decide (density < 32 / 100) || decide (7 / 10 < density) then false
  else
    let aspectRatio : ℚ := (el.width : ℚ) / (el.height : ℚ)
    if decide (aspectRatio < 2) || decide (15 < aspectRatio) then false
    else if decide (el.height < 10) || decide (35 < el.height) then false
    else if decide (el.width < 30) then false
    else
      let sampleLines : ℤ := min 5 el.height
      let linesWithVariation := (intRange 0 sampleLines).foldl (fun acc i =>
        let y : ℤ := ⌊(el.y : ℚ) + (el.height : ℚ) * (i : ℚ) / (sampleLines : ℚ)⌋
        if (height : ℤ) ≤ y then acc
        else if 6 ≤ lineTransitions data width el y then acc + 1 else acc) 0
      decide (3 ≤ linesWithVariation)

/-- Convert a traced black box to the pushed JS object (which carries
`detectionMethod: 'pixel'` and `isCanvasCoords: true`). -/
def pixRegion (b : PixBox) : Region :=
  { x := (b.x : ℚ), y := (b.y : ℚ), width := (b.width : ℚ), height := (b.height : ℚ),
    pixelCount := (b.pixelCount : ℕ), detectionMethod := some "pixel", isCanvasCoords := true }

/-- The seed scan of `findOverlappingText` (rows step 3, columns step 6) with
the shared visited set; black unvisited seeds are traced (cap 10000) and kept
when the classifier accepts them. -/
def findOverlappingTextScan (data : ℕ → ℕ) (width height : ℕ) : List PixBox :=
  ((stepRange height 3).foldl (fun st y =>
    (stepRange width 6).foldl (fun (st : List PixBox × List (ℤ × ℤ)) x =>
      if isBlackPx (data ((y * width + x) * 4)) (data ((y * width + x) * 4 + 1))
          (data ((y * width + x) * 4 + 2)) then
        if st.2.contains ((x : ℤ), (y : ℤ)) then st
        else
          let t := traceFrom isBlackPx 10000 data width height x y st.2
          if isOverlappingText data width height t.box then (st.1 ++ [t.box], t.visited)
          else (st.1, t.visited)
      else st) st) (([], []) : List PixBox × List (ℤ × ℤ))).1

/-- `findOverlappingText`: scan, classify, then merge (distance 10). -/
def findOverlappingText (data : ℕ → ℕ) (width height : ℕ) : List Region :=
  mergeNearbyRegions ((findOverlappingTextScan data width height).map pixRegion)

/-- `detectOverlappingText` (the dual-method main entry): PDF overlaps when
text items exist, pixel overlaps always, concatenated without cross-method
de-duplication.  The two `hasTextInfo` message branches of the source build
the identical string, so the message simplifies to one positive form. -/
def detectOverlappingText (imageData : ImageData) (pdfPage : Option PdfPage) : DetectionResult :=
  let pdfElements := detectOverlapsFromPDF pdfPage
  let pixelElements := findOverlappingText imageData.data imageData.width imageData.height
  let allElements := pdfElements ++ pixelElements
  { detected := decide (0 < allElements.length)
    count := allElements.length
    locations := allElements
    message :=
      if 0 < allElements.length then
        "Found " ++ toString allElements.length ++ " overlapping text region(s) (" ++
          toString pdfElements.length ++ " PDF, " ++ toString pixelElements.length ++ " pixel)"
      else "No overlapping text detected" }

/-! ## Red-elements detector (redElements.js) -/

/-- Trace-result object of `traceElement` as pushed (no annotation tags). -/
def plainRegion (b : PixBox) : Region :=
  { x := (b.x : ℚ), y := (b.y : ℚ), width := (b.width : ℚ), height := (b.height : ℚ),
    pixelCount := (b.pixelCount : ℕ) }

/-- The seed scan of `findRedElements` (stride 2 in both axes, cap 100000,
noise filter `pixelCount > 50`). -/
def findRedElementsScan (data : ℕ → ℕ) (width height : ℕ) : List PixBox :=
  ((stepRange height 2).foldl (fun st y =>
    (stepRange width 2).foldl (fun (st : List PixBox × List (ℤ × ℤ)) x =>
      if isReddish (data ((y * width + x) * 4)) (data ((y * width + x) * 4 + 1))
          (data ((y * width + x) * 4 + 2)) then
        if st.2.contains ((x : ℤ), (y : ℤ)) then st
        else
          let t := traceFrom isReddish 100000 data width height x y st.2
          if 50 < t.box.pixelCount then (st.1 ++ [t.box], t.visited)
          else (st.1, t.visited)
      else st) st) (([], []) : List PixBox × List (ℤ × ℤ))).1

/-- `findRedElements` / `findRedElementsWithProgress`: scan then merge
(distance 15). -/
def findRedElements (data : ℕ → ℕ) (width height : ℕ) : List Region :=
  mergeNearbyElements ((findRedElementsScan data width height).map plainRegion)

/-- The `DetectionResult` that `detectRedElements` resolves with for a
decoded page image. -/
def detectRedElements (imageData : ImageData) : DetectionResult :=
  let elements := findRedElements imageData.data imageData.width imageData.height
  { detected := decide (0 < elements.length)
    count := elements.length
    locations := elements
    message :=
      if 0 < elements.length then "Found " ++ toString elements.length ++ " red element(s)"
      else "No red elements detected" }

/-! ## Highlights detector (highlights.js) -/

/-- Check the highlight predicate at integer coordinates. -/
def highlightAt (data : ℕ → ℕ) (width : ℕ) (x y : ℤ) : Bool :=
  let idx := (y.toNat * width + x.toNat) * 4
  isHighlightPx (data idx) (data (idx + 1)) (data (idx + 2))

/-- `isRectangularOrTrapezoidal`: stride-2 fill-ratio sample, the 1200 px²
minimum-area filter, black-outline sampling two pixels outside each edge, and
the final fill-ratio threshold. -/
def isRectangularOrTrapezoidal (data : ℕ → ℕ) (width height : ℕ) (area : PixBox) : Bool :=
  let rows := intRangeStep area.y (min (area.y + area.height) (height : ℤ)) 2
  let cols := intRangeStep area.x (min (area.x + area.width) (width : ℤ)) 2
  let greyPixelsInBox := rows.foldl (fun acc y =>
    cols.foldl (fun acc x => if highlightAt data width x y then acc + 1 else acc) acc) 0
  let sampledTotal : ℤ := ⌈(area.width : ℚ) / 2⌉ * ⌈(area.height : ℚ) / 2⌉
  let fillRatio : ℚ := (greyPixelsInBox : ℚ) / (sampledTotal : ℚ)
  let totalArea := area.width * area.height
  if decide (totalArea < 1200) then false
  else
    let xs := intRangeStep area.x (min (area.x + area.width) (width : ℤ)) 2
    let ys := intRangeStep area.y (min (area.y + area.height) (height : ℤ)) 2
    let topY : ℤ := max 0 (area.y - 2)
    let topSamples := if topY < (height : ℤ) then xs.length else 0
    let topBlackPixels :=
      if topY < (height : ℤ) then (xs.filter (fun x => blackAt data width x topY)).length else 0
    let bottomY : ℤ := min ((height : ℤ) - 1) (area.y + area.height + 2)
    let bottomSamples := if 0 ≤ bottomY then xs.length else 0
    let bottomBlackPixels :=
      if 0 ≤ bottomY then (xs.filter (fun x => blackAt data width x bottomY)).length else 0
    let leftX : ℤ := max 0 (area.x - 2)
    let leftSamples := if leftX < (width : ℤ) then ys.length else 0
    let leftBlackPixels :=
      if leftX < (width : ℤ) then (ys.filter (fun y => blackAt data width leftX y)).length else 0
    let rightX : ℤ := min ((width : ℤ) - 1) (area.x + area.width + 2)
    let rightSamples := if 0 ≤ rightX then ys.length else 0
    let rightBlackPixels :=
      if 0 ≤ rightX then (ys.filter (fun y => blackAt data width rightX y)).length else 0
    let topBlackRatio : ℚ := if 0 < topSamples then (topBlackPixels : ℚ) / topSamples else 0
    let bottomBlackRatio : ℚ :=
      if 0 < bottomSamples then (bottomBlackPixels : ℚ) / bottomSamples else 0
    let leftBlackRatio : ℚ := if 0 < leftSamples then (leftBlackPixels : ℚ) / leftSamples else 0
    let rightBlackRatio : ℚ :=
      if 0 < rightSamples then (rightBlackPixels : ℚ) / rightSamples else 0
    let edgesWithBlackOutline : ℕ :=
      (if decide (15 / 100 < topBlackRatio) then 1 else 0) +
      (if decide (15 / 100 < bottomBlackRatio) then 1 else 0) +
      (if decide (15 / 100 < leftBlackRatio) then 1 else 0) +
      (if decide (15 / 100 < rightBlackRatio) then 1 else 0)
    let aspectRatio : ℚ := (area.width : ℚ) / (area.height : ℚ)
    if 2 ≤ edgesWithBlackOutline && decide (aspectRatio < 3) then false
    else decide (48 / 100 < fillRatio)

/-- The size gate applied to a traced highlight area. -/
def meetsSize (b : PixBox) : Bool :=
  decide (100 < b.pixelCount) &&
    ((decide (15 < b.width) && decide (5 < b.height)) ||
     (decide (5 < b.width) && decide (15 < b.height)))

/-- The seed scan of `findHighlightedText` (stride 1, cap 100000, size gate
then shape filter). -/
def findHighlightsScan (data : ℕ → ℕ) (width height : ℕ) : List PixBox :=
  ((List.range height).foldl (fun st y =>
    (List.range width).foldl (fun (st : List PixBox × List (ℤ × ℤ)) x =>
      if isHighlightPx (data ((y * width + x) * 4)) (data ((y * width + x) * 4 + 1))
          (data ((y * width + x) * 4 + 2)) then
        if st.2.contains ((x : ℤ), (y : ℤ)) then st
        else
          let t := traceFrom isHighlightPx 100000 data width height x y st.2
          if meetsSize t.box && isRectangularOrTrapezoidal data width height t.box then
            (st.1 ++ [t.box], t.visited)
          else (st.1, t.visited)
      else st) st) (([], []) : List PixBox × List (ℤ × ℤ))).1

/-- `findHighlightedText` / `findHighlightedTextWithProgress`: scan then merge
(distance 20). -/
def findHighlightedText (data : ℕ → ℕ) (width height : ℕ) : List Region :=
  mergeNearbyHighlights ((findHighlightsScan data width height).map plainRegion)

/-- The `DetectionResult` that `detectHighlights` resolves with. -/
def detectHighlights (imageData : ImageData) : DetectionResult :=
  let elements := findHighlightedText imageData.data imageData.width imageData.height
  { detected := decide (0 < elements.length)
    count := elements.length
    locations := elements
    message :=
      if 0 < elements.length then "Found " ++ toString elements.length ++ " highlighted area(s)"
      else "No highlights detected" }

/-! ## Concrete example inputs used by the claim theorems -/

/-- A geotech report page whose text contains the two parenthesised table
entries verbatim. -/
def c2Page : PageText :=
  { pageNumber := 1, fullText := "SDS (ASCE 11.4): 1.20 SDS (Site Specific): 0.95" }

/-- A geotech report page with the colon table format: an ASCE-context value
first and a site-specific value more than 100 characters later. -/
def c2PriorityPage : PageText :=
  { pageNumber := 1
    fullText := "PER ASCE 7 SECTION 11.4 THE MAPPED SHORT PERIOD VALUE IS LISTED IN THE FIRST TABLE COLUMN AS SDS: 1.20 AND A LONG RUN OF PADDING WORDS SEPARATES THE TWO COLUMNS OF THE SUMMARY TABLE SO THAT THE CONTEXT WINDOWS OF THE TWO MATCHES STAY WELL APART. THE SITE SPECIFIC GROUND MOTION STUDY RECOMMENDS SDS: 0.95 FOR USE" }

/-- A page with two matches of equal priority (no ASCE, no site-specific
context): the tie keeps the first-seen match. -/
def c2TiePage : PageText :=
  { pageNumber := 1, fullText := "THE TABLE LISTS SDS: 1.20 AND ALSO SDS: 0.95 TOGETHER" }

/-- A standalone detail reference item (anchors a callout bubble). -/
def itemDetailRef : TextItem :=
  { str := "630SX001", transform := ⟨10, 0, 0, 10, 100, 100⟩, width := 40, height := 10 }

/-- A bubble number positioned per the bubble geometry rule: its center
(120, 109) lies inside the exclusion zone [80,160]×[80,110] anchored by
`itemDetailRef`, and its raw box [110,130]×[103,115] intersects the
reference box [100,140]×[100,110] with a 20×7 overlap. -/
def itemBubbleNum : TextItem :=
  { str := "3", transform := ⟨10, 0, 0, 10, 110, 103⟩, width := 20, height := 12 }

/-- A demo viewport, scale 3 with the usual Y-flipping transform. -/
def demoViewport : Viewport :=
  { scale := 3, transform := ⟨3, 0, 0, -3, 0, 3000⟩, width := 1000, height := 1000 }

/-- The bubble-exclusion demo page. -/
def bubbleDemoPage : PdfPage :=
  { textItems := some [itemBubbleNum, itemDetailRef], viewport := demoViewport }

/-- Two genuinely overlapping long text items (no bubbles). -/
def itemHello : TextItem :=
  { str := "HELLO", transform := ⟨10, 0, 0, 10, 100, 100⟩, width := 50, height := 10 }

def itemWorld : TextItem :=
  { str := "WORLD", transform := ⟨10, 0, 0, 10, 110, 102⟩, width := 50, height := 10 }

/-- A page where the PDF method reports exactly one overlap. -/
def overlapDemoPage : PdfPage :=
  { textItems := some [itemHello, itemWorld], viewport := demoViewport }

/-- A one-pixel all-white raster (no pixel-method detections). -/
def whitePixelImage : ImageData := { data := fun _ => 255, width := 1, height := 1 }

/-- An extracted-values entry carrying an Sds value. -/
def demoSdsEntry : ExtractedEntry :=
  { label := "Sds", fullName := "Design Spectral Response Acceleration (Short Period)",
    value := some "0.95", pageNumber := some 1, confidence := 1, type := "numeric" }

/-- Expected values with exactly the Sds parameter present. -/
def demoEVs : List (SKey × ExtractedEntry) := [(SKey.Sds, demoSdsEntry)]

/-- A drawing page without any general-notes heading whose text contains an
Sds value (so the fallback notes window yields a pattern match). -/
def demoDrawPage : PageText :=
  { pageNumber := 1, fullText := "THE VALUE SDS: 0.95 APPEARS HERE" }

/-- Two merge-range boxes for the order-independence witness. -/
def mergeDemoBox1 : Region := { x := 0, y := 0, width := 10, height := 10, pixelCount := 5 }

def mergeDemoBox2 : Region := { x := 15, y := 0, width := 10, height := 10, pixelCount := 7 }

/-- An expected-values entry is "found in the notes": it has a truthy value
and some pattern of its parameter matches the notes text. -/
def entryFound (notesText : String) (ke : SKey × ExtractedEntry) : Bool :=
  match ke.2.value with
  | none => false
  | some v =>
    !v.isEmpty &&
      (SEISMIC_PATTERNS ke.1).patterns.any (fun p => !(reMatchAll p notesText).isEmpty)

/-- The single overlap region the PDF method reports on `overlapDemoPage`. -/
def demoOverlapRegion : Region :=
  { x := 330, y := 2670, width := 120, height := 24, pixelCount := 2880,
    text1 := some "HELLO", text2 := some "WORLD",
    detectionMethod := some "pdf-text", isCanvasCoords := true }

/-- One merge rewrite step on a multiset of regions: pick any two boxes in
merge range and replace them by their union box.  Each elementary merge the JS
merger performs is such a step, so a full merger run is a sequence of these
steps; the step relation is the vehicle for the order-independence proof. -/
def MStep (d : ℚ) (s t : Multiset Region) : Prop :=
  ∃ x y rest, s = x ::ₘ y ::ₘ rest ∧ canMergeB d x y = true ∧ t = unionRegion x y ::ₘ rest

/-! ## Merger theory: fixed point and idempotence -/

theorem absorbOnce_false {d : ℚ} {e : Region} {bs : List Region}
    (h : (absorbOnce d e bs).2.2 = false) : absorbOnce d e bs = (e, bs, false) := by
  induction bs generalizing e with
  | nil => simp [absorbOnce]
  | cons b bs ih =>
    by_cases hc : canMergeB d e b = true
    · simp [absorbOnce, hc] at h
    · simp only [absorbOnce, if_neg hc] at h ⊢
      rw [ih h]

theorem absorbOnce_rest_le (d : ℚ) (e : Region) (bs : List Region) :
    (absorbOnce d e bs).2.1.length ≤ bs.length := by
  induction bs generalizing e with
  | nil => simp [absorbOnce]
  | cons b bs ih =>
    by_cases hc : canMergeB d e b = true
    · simp only [absorbOnce, hc, if_true]
      exact le_trans (ih _) (Nat.le_succ _)
    · simp only [absorbOnce, hc, if_false, List.length_cons]
      exact Nat.succ_le_succ (ih _)

theorem mergePass_len_le (d : ℚ) : ∀ es : List Region, (mergePass d es).1.length ≤ es.length := by
  have H : ∀ (n : ℕ) (es : List Region), es.length ≤ n →
      (mergePass d es).1.length ≤ es.length := by
    intro n
    induction n with
    | zero =>
      intro es h
      cases es with
      | nil => simp [mergePass]
      | cons e es => simp at h
    | succ n ih =>
      intro es h
      cases es with
      | nil => simp [mergePass]
      | cons e es =>
        simp only [mergePass, List.length_cons]
        have h1 := absorbOnce_rest_le d e es
        have h2 := ih (absorbOnce d e es).2.1 (by simp only [List.length_cons] at h; omega)
        omega
  exact fun es => H es.length es le_rfl

theorem mergePass_false {d : ℚ} : ∀ {es : List Region}, (mergePass d es).2 = false →
    (mergePass d es).1 = es := by
  have H : ∀ (n : ℕ) (es : List Region), es.length ≤ n → (mergePass d es).2 = false →
      (mergePass d es).1 = es := by
    intro n
    induction n with
    | zero =>
      intro es hl h
      cases es with
      | nil => simp [mergePass]
      | cons e es => simp at hl
    | succ n ih =>
      intro es hl h
      cases es with
      | nil => simp [mergePass]
      | cons e es =>
        simp only [mergePass, Bool.or_eq_false_iff] at h
        obtain ⟨h1, h2⟩ := h
        have ha := absorbOnce_false h1
        simp only [mergePass, ha]
        rw [ha] at h2
        rw [ih es (by simp only [List.length_cons] at hl; omega) h2]
  exact fun {es} h => H es.length es le_rfl h

theorem absorbOnce_false_pair {d : ℚ} {e : Region} {bs : List Region}
    (h : (absorbOnce d e bs).2.2 = false) : ∀ b ∈ bs, canMergeB d e b = false := by
  induction bs generalizing e with
  | nil => intro b hb; cases hb
  | cons b bs ih =>
    by_cases hc : canMergeB d e b = true
    · simp [absorbOnce, hc] at h
    · simp only [absorbOnce, if_neg hc] at h
      intro c hc'
      cases hc' with
      | head => exact Bool.not_eq_true _ ▸ Bool.of_not_eq_true hc
      | tail _ hm => exact ih h c hm

theorem mergePass_false_pairwise {d : ℚ} : ∀ {es : List Region},
    (mergePass d es).2 = false → es.Pairwise (fun a b => canMergeB d a b = false) := by
  have H : ∀ (n : ℕ) (es : List Region), es.length ≤ n → (mergePass d es).2 = false →
      es.Pairwise (fun a b => canMergeB d a b = false) := by
    intro n
    induction n with
    | zero =>
      intro es hl h
      cases es with
      | nil => exact List.Pairwise.nil
      | cons e es => simp at hl
    | succ n ih =>
      intro es hl h
      cases es with
      | nil => exact List.Pairwise.nil
      | cons e es =>
        simp only [mergePass, Bool.or_eq_false_iff] at h
        obtain ⟨h1, h2⟩ := h
        have ha := absorbOnce_false h1
        rw [ha] at h2
        exact List.Pairwise.cons (absorbOnce_false_pair h1)
          (ih es (by simp only [List.length_cons] at hl; omega) h2)
  exact fun {es} h => H es.length es le_rfl h

theorem absorbOnce_true_lt {d : ℚ} {e : Region} {bs : List Region}
    (h : (absorbOnce d e bs).2.2 = true) : (absorbOnce d e bs).2.1.length < bs.length := by
  induction bs generalizing e with
  | nil => simp [absorbOnce] at h
  | cons b bs ih =>
    by_cases hc : canMergeB d e b = true
    · simp only [absorbOnce, if_pos hc, List.length_cons]
      exact Nat.lt_succ_of_le (absorbOnce_rest_le d _ bs)
    · simp only [absorbOnce, if_neg hc, List.length_cons] at h ⊢
      exact Nat.succ_lt_succ (ih h)

theorem mergePass_true_lt {d : ℚ} : ∀ {es : List Region},
    (mergePass d es).2 = true → (mergePass d es).1.length < es.length := by
  have H : ∀ (n : ℕ) (es : List Region), es.length ≤ n → (mergePass d es).2 = true →
      (mergePass d es).1.length < es.length := by
    intro n
    induction n with
    | zero =>
      intro es hl h
      cases es with
      | nil => simp [mergePass] at h
      | cons e es => simp at hl
    | succ n ih =>
      intro es hl h
      cases es with
      | nil => simp [mergePass] at h
      | cons e es =>
        simp only [mergePass, List.length_cons] at h ⊢
        by_cases ha : (absorbOnce d e es).2.2 = true
        · have hlt := absorbOnce_true_lt ha
          have hle := mergePass_len_le d (absorbOnce d e es).2.1
          omega
        · have ha' : (absorbOnce d e es).2.2 = false := by
            exact Bool.not_eq_true _ ▸ Bool.of_not_eq_true ha
          have heq := absorbOnce_false ha'
          have h21 : (absorbOnce d e es).2.1 = es := by rw [heq]
          rw [ha', Bool.false_or] at h
          rw [h21] at h ⊢
          have := ih es (by simp only [List.length_cons] at hl; omega) h
          omega
  exact fun {es} h => H es.length es le_rfl h

theorem mergeLoop_nf (d : ℚ) : ∀ (fuel : ℕ) (es : List Region), es.length < fuel →
    (mergePass d (mergeLoop d fuel es)).2 = false := by
  intro fuel
  induction fuel with
  | zero => intro es h; omega
  | succ n ih =>
    intro es h
    by_cases hp : (mergePass d es).2 = true
    · simp only [mergeLoop, if_pos hp]
      exact ih _ (by have := mergePass_true_lt hp; omega)
    · have hp' : (mergePass d es).2 = false := by
        exact Bool.not_eq_true _ ▸ Bool.of_not_eq_true hp
      simp only [mergeLoop, if_neg hp]
      rw [mergePass_false hp']
      exact hp'

theorem nf_loop_eq {d : ℚ} {es : List Region} (h : (mergePass d es).2 = false) :
    ∀ fuel, mergeLoop d fuel es = es := by
  intro fuel
  cases fuel with
  | zero => rfl
  | succ n =>
    have hne : ¬(mergePass d es).2 = true := by simp [h]
    simp only [mergeLoop, if_neg hne]
    exact mergePass_false h

theorem mergeNearby_idem (d : ℚ) (es : List Region) :
    mergeNearby d (mergeNearby d es) = mergeNearby d es := by
  by_cases he : es.isEmpty = true
  · simp [mergeNearby, he]
  · simp only [mergeNearby, if_neg he]
    have hnf := mergeLoop_nf d (es.length + 1) es (Nat.lt_succ_self _)
    by_cases hr : (mergeLoop d (es.length + 1) es).isEmpty = true
    · simp [hr]
    · simp only [if_neg hr]
      exact nf_loop_eq hnf _

theorem mergeNearby_pairwise (d : ℚ) (es : List Region) :
    (mergeNearby d es).Pairwise (fun a b => canMergeB d a b = false) := by
  by_cases he : es.isEmpty = true
  · have : es = [] := by cases es <;> simp_all
    simp [mergeNearby, this]
  · simp only [mergeNearby, if_neg he]
    exact mergePass_false_pairwise (mergeLoop_nf d (es.length + 1) es (Nat.lt_succ_self _))

/-! ## Merger theory: algebra of the union box and the step relation -/

theorem hDist_comm (e o : Region) : hDist e o = hDist o e := by
  unfold hDist
  rw [max_left_comm]

theorem vDist_comm (e o : Region) : vDist e o = vDist o e := by
  unfold vDist
  rw [max_left_comm]

theorem canMergeB_comm (d : ℚ) (e o : Region) : canMergeB d e o = canMergeB d o e := by
  unfold canMergeB
  rw [hDist_comm, vDist_comm]

theorem qMinMaxCancel (m M : ℚ) : m + (M - m) = M := by ring

theorem unionRegion_comm (a b : Region) : unionRegion a b = unionRegion b a := by
  ext <;> simp only [unionRegion] <;>
    first
      | rfl
      | rw [max_comm, min_comm]
      | rw [min_comm]
      | ring

theorem unionRegion_assoc (a b c : Region) :
    unionRegion (unionRegion a b) c = unionRegion a (unionRegion b c) := by
  ext <;> simp only [unionRegion, qMinMaxCancel] <;>
    first
      | rfl
      | rw [max_assoc, min_assoc]
      | rw [min_assoc]
      | ring

theorem unionRegion_right_comm (a b c : Region) :
    unionRegion (unionRegion a b) c = unionRegion (unionRegion a c) b := by
  rw [unionRegion_assoc, unionRegion_comm b c, ← unionRegion_assoc]

theorem unionRegion_right_x (e o : Region) :
    (unionRegion e o).x + (unionRegion e o).width = max (e.x + e.width) (o.x + o.width) := by
  simp only [unionRegion]
  ring

theorem unionRegion_bottom_y (e o : Region) :
    (unionRegion e o).y + (unionRegion e o).height = max (e.y + e.height) (o.y + o.height) := by
  simp only [unionRegion]
  ring

theorem hDist_union_le_left (x y z : Region) : hDist (unionRegion x y) z ≤ hDist x z := by
  have h1 : (unionRegion x y).x ≤ x.x := min_le_left _ _
  have h2 : x.x + x.width ≤ (unionRegion x y).x + (unionRegion x y).width := by
    rw [unionRegion_right_x]
    exact le_max_left _ _
  unfold hDist
  exact max_le_max (by linarith) (max_le_max (by linarith) le_rfl)

theorem vDist_union_le_left (x y z : Region) : vDist (unionRegion x y) z ≤ vDist x z := by
  have h1 : (unionRegion x y).y ≤ x.y := min_le_left _ _
  have h2 : x.y + x.height ≤ (unionRegion x y).y + (unionRegion x y).height := by
    rw [unionRegion_bottom_y]
    exact le_max_left _ _
  unfold vDist
  exact max_le_max (by linarith) (max_le_max (by linarith) le_rfl)

theorem canMergeB_union_left {d : ℚ} {x z : Region} (y : Region)
    (h : canMergeB d x z = true) : canMergeB d (unionRegion x y) z = true := by
  simp only [canMergeB, Bool.and_eq_true, decide_eq_true_eq] at h ⊢
  exact ⟨le_trans (hDist_union_le_left x y z) h.1, le_trans (vDist_union_le_left x y z) h.2⟩

theorem canMergeB_union_right {d : ℚ} {y z : Region} (x : Region)
    (h : canMergeB d y z = true) : canMergeB d (unionRegion x y) z = true := by
  rw [unionRegion_comm]
  exact canMergeB_union_left x h

theorem mset_rot (p q r : Region) (m : Multiset Region) :
    p ::ₘ q ::ₘ r ::ₘ m = q ::ₘ r ::ₘ p ::ₘ m := by
  rw [Multiset.cons_swap p q, Multiset.cons_swap p r]

theorem mstep_cons {d : ℚ} {s t : Multiset Region} (a : Region) (h : MStep d s t) :
    MStep d (a ::ₘ s) (a ::ₘ t) := by
  obtain ⟨x, y, rest, hs, hc, ht⟩ := h
  refine ⟨x, y, a ::ₘ rest, ?_, hc, ?_⟩
  · rw [hs, Multiset.cons_swap a x, Multiset.cons_swap a y]
  · rw [ht]
    exact Multiset.cons_swap a _ rest

theorem rtg_cons {d : ℚ} {s t : Multiset Region} (a : Region)
    (h : Relation.ReflTransGen (MStep d) s t) :
    Relation.ReflTransGen (MStep d) (a ::ₘ s) (a ::ₘ t) :=
  Relation.ReflTransGen.lift (a ::ₘ ·) (fun _ _ hh => mstep_cons a hh) h

theorem absorb_rtg (d : ℚ) (bs : List Region) : ∀ e : Region,
    Relation.ReflTransGen (MStep d) (e ::ₘ ↑bs)
      ((absorbOnce d e bs).1 ::ₘ ↑(absorbOnce d e bs).2.1) := by
  induction bs with
  | nil =>
    intro e
    simp only [absorbOnce]
    exact Relation.ReflTransGen.refl
  | cons b bs ih =>
    intro e
    by_cases hc : canMergeB d e b = true
    · simp only [absorbOnce, if_pos hc]
      have step : MStep d (e ::ₘ ↑(b :: bs)) (unionRegion e b ::ₘ ↑bs) :=
        ⟨e, b, ↑bs, by rw [← Multiset.cons_coe b bs], hc, rfl⟩
      exact Relation.ReflTransGen.head step (ih (unionRegion e b))
    · simp only [absorbOnce, if_neg hc]
      have hL : (e ::ₘ (↑(b :: bs) : Multiset Region)) = b ::ₘ e ::ₘ ↑bs := by
        rw [← Multiset.cons_coe b bs, Multiset.cons_swap]
      have hR : ((absorbOnce d e bs).1 ::ₘ (↑(b :: (absorbOnce d e bs).2.1) : Multiset Region))
          = b ::ₘ (absorbOnce d e bs).1 ::ₘ ↑(absorbOnce d e bs).2.1 := by
        rw [← Multiset.cons_coe b ((absorbOnce d e bs).2.1), Multiset.cons_swap]
      rw [hL, hR]
      exact rtg_cons b (ih e)

theorem pass_rtg (d : ℚ) : ∀ es : List Region,
    Relation.ReflTransGen (MStep d) ↑es ↑(mergePass d es).1 := by
  have H : ∀ (n : ℕ) (es : List Region), es.length ≤ n →
      Relation.ReflTransGen (MStep d) ↑es ↑(mergePass d es).1 := by
    intro n
    induction n with
    | zero =>
      intro es hl
      cases es with
      | nil => simp only [mergePass]; exact Relation.ReflTransGen.refl
      | cons e es => simp at hl
    | succ n ih =>
      intro es hl
      cases es with
      | nil => simp only [mergePass]; exact Relation.ReflTransGen.refl
      | cons e es =>
        simp only [mergePass]
        rw [← Multiset.cons_coe e es, ← Multiset.cons_coe]
        refine Relation.ReflTransGen.trans (absorb_rtg d es e) (rtg_cons _ (ih _ ?_))
        exact le_trans (absorbOnce_rest_le d e es) (by simp only [List.length_cons] at hl; omega)
  exact fun es => H es.length es le_rfl

theorem loop_rtg (d : ℚ) : ∀ (fuel : ℕ) (es : List Region),
    Relation.ReflTransGen (MStep d) ↑es ↑(mergeLoop d fuel es) := by
  intro fuel
  induction fuel with
  | zero => intro es; exact Relation.ReflTransGen.refl
  | succ n ih =>
    intro es
    by_cases hp : (mergePass d es).2 = true
    · simp only [mergeLoop, if_pos hp]
      exact Relation.ReflTransGen.trans (pass_rtg d es) (ih _)
    · simp only [mergeLoop, if_neg hp]
      exact pass_rtg d es

theorem mergeNearby_rtg (d : ℚ) (es : List Region) :
    Relation.ReflTransGen (MStep d) ↑es ↑(mergeNearby d es) := by
  by_cases he : es.isEmpty = true
  · simp only [mergeNearby, if_pos he]
    exact Relation.ReflTransGen.refl
  · simp only [mergeNearby, if_neg he]
    exact loop_rtg d _ es

theorem canMergeB_symm_false {d : ℚ} {a b : Region} (h : canMergeB d a b = false) :
    canMergeB d b a = false := by
  rw [canMergeB_comm]
  exact h

theorem not_step_of_pairwise {d : ℚ} {es : List Region}
    (h : es.Pairwise (fun a b => canMergeB d a b = false)) :
    ∀ t, ¬ MStep d ↑es t := by
  rintro t ⟨x, y, rest, hs, hc, -⟩
  obtain ⟨l, hl⟩ := Quotient.exists_rep rest
  rw [← hl] at hs
  simp only [Multiset.quot_mk_to_coe] at hs
  have hs' : es.Perm (x :: y :: l) := by
    rw [← Multiset.coe_eq_coe]
    rw [hs, Multiset.cons_coe y l, Multiset.cons_coe x (y :: l)]
  have hp := (List.Perm.pairwise_iff (fun hxy => canMergeB_symm_false hxy) hs').mp h
  have hxy := (List.pairwise_cons.mp hp).1 y (by simp)
  rw [hc] at hxy
  cases hxy

theorem rtg_eq_of_nf {d : ℚ} {a b : Multiset Region}
    (h : Relation.ReflTransGen (MStep d) a b) (hnf : ∀ t, ¬ MStep d a t) : a = b := by
  cases h.cases_head with
  | inl h => exact h
  | inr h =>
    obtain ⟨c, hac, -⟩ := h
    exact absurd hac (hnf c)

theorem mstep_diamond {d : ℚ} : ∀ a b c : Multiset Region, MStep d a b → MStep d a c →
    ∃ w, Relation.ReflGen (MStep d) b w ∧ Relation.ReflTransGen (MStep d) c w := by
  rintro a b c ⟨x1, y1, r1, hs1, hc1, ht1⟩ ⟨x2, y2, r2, hs2, hc2, ht2⟩
  subst ht1
  subst ht2
  rw [hs1] at hs2
  rcases Multiset.cons_eq_cons.mp hs2 with ⟨hx, htl⟩ | ⟨hxne, cs, h1, h2⟩
  · rw [hx] at hc1 ⊢
    rcases Multiset.cons_eq_cons.mp htl with ⟨hy, hr⟩ | ⟨hyne, cs, hy1, hy2⟩
    · rw [hy] at hc1 ⊢
      rw [hr]
      exact ⟨unionRegion x2 y2 ::ₘ r2, Relation.ReflGen.refl, Relation.ReflTransGen.refl⟩
    · rw [hy1, hy2]
      refine ⟨unionRegion (unionRegion x2 y1) y2 ::ₘ cs, Relation.ReflGen.single ?_,
        Relation.ReflTransGen.single ?_⟩
      · exact ⟨unionRegion x2 y1, y2, cs, rfl, canMergeB_union_left y1 hc2, rfl⟩
      · refine ⟨unionRegion x2 y2, y1, cs, rfl, canMergeB_union_left y2 hc1, ?_⟩
        rw [unionRegion_right_comm]
  · rcases Multiset.cons_eq_cons.mp h1 with ⟨hy1x2, hr1cs⟩ | ⟨hy1ne, ds, hd1, hd2⟩
    · rw [hy1x2] at hc1 ⊢
      rw [hr1cs]
      rcases Multiset.cons_eq_cons.mp h2 with ⟨hy2x1, hr2⟩ | ⟨hy2ne, es2, he1, he2⟩
      · rw [hy2x1] at hc2 ⊢
        rw [hr2]
        refine ⟨unionRegion x1 x2 ::ₘ cs, Relation.ReflGen.refl, ?_⟩
        rw [unionRegion_comm x2 x1]
      · rw [he1, he2]
        refine ⟨unionRegion (unionRegion x1 x2) y2 ::ₘ es2, Relation.ReflGen.single ?_,
          Relation.ReflTransGen.single ?_⟩
        · exact ⟨unionRegion x1 x2, y2, es2, rfl, canMergeB_union_right x1 hc2, rfl⟩
        · have hcc : canMergeB d x2 x1 = true := by rw [canMergeB_comm]; exact hc1
          refine ⟨unionRegion x2 y2, x1, es2, rfl, canMergeB_union_left y2 hcc, ?_⟩
          rw [unionRegion_assoc, unionRegion_comm]
    · rw [hd1]
      rw [hd2] at h2
      rcases Multiset.cons_eq_cons.mp h2 with ⟨hy2x1, hr2⟩ | ⟨hy2ne, fs, hf1, hf2⟩
      · rw [hy2x1] at hc2 ⊢
        rw [hr2]
        refine ⟨unionRegion (unionRegion x1 y1) x2 ::ₘ ds, Relation.ReflGen.single ?_,
          Relation.ReflTransGen.single ?_⟩
        · have hcc : canMergeB d x1 x2 = true := by rw [canMergeB_comm]; exact hc2
          exact ⟨unionRegion x1 y1, x2, ds, rfl, canMergeB_union_left y1 hcc, rfl⟩
        · refine ⟨unionRegion x2 x1, y1, ds, rfl, canMergeB_union_right x2 hc1, ?_⟩
          rw [unionRegion_comm (unionRegion x1 y1) x2, ← unionRegion_assoc]
      · rw [hf1]
        rcases Multiset.cons_eq_cons.mp hf2 with ⟨hy12, hdsfs⟩ | ⟨hyy, gs, hg1, hg2⟩
        · rw [← hy12] at hc2 ⊢
          rw [← hdsfs]
          refine ⟨unionRegion (unionRegion x1 y1) x2 ::ₘ ds, Relation.ReflGen.single ?_,
            Relation.ReflTransGen.single ?_⟩
          · have hcc : canMergeB d y1 x2 = true := by rw [canMergeB_comm]; exact hc2
            exact ⟨unionRegion x1 y1, x2, ds, rfl, canMergeB_union_right x1 hcc, rfl⟩
          · have hcc : canMergeB d y1 x1 = true := by rw [canMergeB_comm]; exact hc1
            refine ⟨unionRegion x2 y1, x1, ds, rfl, canMergeB_union_right x2 hcc, ?_⟩
            rw [unionRegion_comm (unionRegion x1 y1) x2, unionRegion_comm x1 y1,
              ← unionRegion_assoc]
        · rw [hg1, hg2]
          refine ⟨unionRegion x1 y1 ::ₘ unionRegion x2 y2 ::ₘ gs,
            Relation.ReflGen.single ?_, Relation.ReflTransGen.single ?_⟩
          · exact ⟨x2, y2, unionRegion x1 y1 ::ₘ gs, mset_rot _ _ _ _, hc2,
              Multiset.cons_swap _ _ _⟩
          · exact ⟨x1, y1, unionRegion x2 y2 ::ₘ gs, mset_rot _ _ _ _, hc1, rfl⟩

/-- C7: the region merger is idempotent (`merge(merge(S)) = merge(S)` for the
fixed merge distance of each detector), and equivalently its output is in
normal form: no two output boxes have both their clamped horizontal and
vertical gaps within the merge distance. -/
theorem c7_merger_idempotent (d : ℚ) (es : List Region) :
    mergeNearby d (mergeNearby d es) = mergeNearby d es ∧
    (mergeNearby d es).Pairwise (fun a b => canMergeB d a b = false) :=
  ⟨mergeNearby_idem d es, mergeNearby_pairwise d es⟩

/-- C8: the region merger is order-independent: permuting the input list does
not change the final collection of boxes, viewed as a multiset (same union
boxes with the same summed pixel counts, up to output order). -/
theorem c8_merger_order_independent (d : ℚ) (es es' : List Region) (hp : es.Perm es') :
    (↑(mergeNearby d es) : Multiset Region) = ↑(mergeNearby d es') := by
  have h1 := mergeNearby_rtg d es
  have h2 := mergeNearby_rtg d es'
  rw [← Multiset.coe_eq_coe.mpr hp] at h2
  have hj := Relation.church_rosser (fun a b c hab hac => mstep_diamond a b c hab hac) h1 h2
  obtain ⟨w, hw1, hw2⟩ := hj
  have hn1 := not_step_of_pairwise (mergeNearby_pairwise d es)
  have hn2 := not_step_of_pairwise (mergeNearby_pairwise d es')
  rw [rtg_eq_of_nf hw1 hn1, rtg_eq_of_nf hw2 hn2]

/-- Witness for C8: the two demo boxes, merged in both orders. -/
theorem c8_merger_order_independent_witness :
    [mergeDemoBox1, mergeDemoBox2].Perm [mergeDemoBox2, mergeDemoBox1] ∧
    (↑(mergeNearby 10 [mergeDemoBox1, mergeDemoBox2]) : Multiset Region) =
      ↑(mergeNearby 10 [mergeDemoBox2, mergeDemoBox1]) :=
  ⟨List.Perm.swap mergeDemoBox2 mergeDemoBox1 [],
   c8_merger_order_independent 10 _ _ (List.Perm.swap mergeDemoBox2 mergeDemoBox1 [])⟩

/-! ## Detection-result invariant and per-detector claims -/

/-- C1: every `DetectionResult` produced by the red-element, highlight,
missing-reference and overlapping-text analyzers has `detected` true exactly
when `count > 0`, and `count` equal to `locations.length`. -/
theorem c1_detection_result_invariant (img : ImageData) (pg pg2 : Option PdfPage) :
    (((detectRedElements img).detected = true ↔ 0 < (detectRedElements img).count) ∧
      (detectRedElements img).locations.length = (detectRedElements img).count) ∧
    (((detectHighlights img).detected = true ↔ 0 < (detectHighlights img).count) ∧
      (detectHighlights img).locations.length = (detectHighlights img).count) ∧
    (((detectNoRefs pg).detected = true ↔ 0 < (detectNoRefs pg).count) ∧
      (detectNoRefs pg).locations.length = (detectNoRefs pg).count) ∧
    (((detectOverlappingText img pg2).detected = true ↔
        0 < (detectOverlappingText img pg2).count) ∧
      (detectOverlappingText img pg2).locations.length =
        (detectOverlappingText img pg2).count) := by
  refine ⟨⟨?_, rfl⟩, ⟨?_, rfl⟩, ⟨?_, rfl⟩, ⟨?_, rfl⟩⟩ <;>
    simp [detectRedElements, detectHighlights, detectNoRefs, detectOverlappingText]

/-- C4: the missing-reference analyzer emits exactly one region per text item
whose trimmed string fully matches the dash/slash pattern with optional
trailing punctuation; the four sample strings behave as specified, and the
emitted region carries the floor/ceil coordinate map of the item. -/
theorem c4_noref_regions (vp : Viewport) (items : List TextItem) :
    detectNoRefsFromPDF (some { textItems := some items, viewport := vp }) =
      items.filterMap (fun item =>
        if reTestFull noRefPattern (jsTrim item.str) then some (noRefRegion vp item)
        else none) ∧
    reTestFull noRefPattern "-/---" = true ∧
    reTestFull noRefPattern "--/----." = true ∧
    reTestFull noRefPattern "-/-" = true ∧
    reTestFull noRefPattern "-\\-" = false ∧
    (∀ item : TextItem,
      (noRefRegion vp item).x =
        ((⌊vp.transform.t0 * item.transform.t4 + vp.transform.t4⌋ : ℤ) : ℚ) ∧
      (noRefRegion vp item).y =
        (((⌊vp.transform.t3 * item.transform.t5 + vp.transform.t5⌋ : ℤ) -
          (⌈item.height * vp.scale⌉ : ℤ) : ℤ) : ℚ) ∧
      (noRefRegion vp item).width = ((⌈item.width * vp.scale⌉ : ℤ) : ℚ) ∧
      (noRefRegion vp item).height = ((⌈item.height * vp.scale⌉ : ℤ) : ℚ)) :=
  ⟨rfl, by decide, by decide, by decide, by decide, fun item => ⟨rfl, rfl, rfl, rfl⟩⟩

/-- C9: the verification preconditions of `detectGeotechMismatches` — missing
geotech data (no data object or no extracted values) and missing or empty PDF
pages — produce the descriptive zero-count results without throwing. -/
theorem c9_geotech_guards (imageData : String) (pages : Option (List PageText)) :
    detectGeotechMismatches imageData none pages =
      zeroGeo "No geotechnical report data available for verification" ∧
    detectGeotechMismatches imageData (some ⟨none⟩) pages =
      zeroGeo "No geotechnical report data available for verification" ∧
    (∀ evs, detectGeotechMismatches imageData (some ⟨some evs⟩) none =
      zeroGeo "Text verification requires PDF upload (images not supported)") ∧
    (∀ evs, detectGeotechMismatches imageData (some ⟨some evs⟩) (some []) =
      zeroGeo "Text verification requires PDF upload (images not supported)") ∧
    (∀ msg, (zeroGeo msg).detected = false ∧ (zeroGeo msg).count = 0 ∧
      (zeroGeo msg).«matches» = [] ∧ (zeroGeo msg).mismatches = [] ∧
      (zeroGeo msg).missing = [] ∧ (zeroGeo msg).message = msg) :=
  ⟨rfl, rfl, fun _ => rfl, fun _ => rfl, fun _ => ⟨rfl, rfl, rfl, rfl, rfl, rfl⟩⟩

/-- C6: `detectOverlappingText` concatenates the PDF-text method's regions
with the pixel method's merged regions without cross-method de-duplication;
`count` is the summed length, and a positive count yields the message with the
per-method counts. -/
theorem c6_overlap_union (img : ImageData) (pg : Option PdfPage) :
    (detectOverlappingText img pg).locations =
      detectOverlapsFromPDF pg ++ findOverlappingText img.data img.width img.height ∧
    (detectOverlappingText img pg).count =
      (detectOverlapsFromPDF pg).length +
        (findOverlappingText img.data img.width img.height).length ∧
    (0 < (detectOverlappingText img pg).count →
      (detectOverlappingText img pg).message =
        "Found " ++ toString ((detectOverlapsFromPDF pg).length +
            (findOverlappingText img.data img.width img.height).length) ++
          " overlapping text region(s) (" ++
          toString (detectOverlapsFromPDF pg).length ++ " PDF, " ++
          toString (findOverlappingText img.data img.width img.height).length ++
          " pixel)") := by
  refine ⟨rfl, by simp [detectOverlappingText], ?_⟩
  intro h
  simp only [detectOverlappingText, List.length_append] at h ⊢
  rw [if_pos h]

/-- Witness for C6 on the two-item demo page over a white raster. -/
theorem c6_overlap_union_witness :
    0 < (detectOverlappingText whitePixelImage (some overlapDemoPage)).count ∧
    (detectOverlappingText whitePixelImage (some overlapDemoPage)).message =
      "Found " ++ toString ((detectOverlapsFromPDF (some overlapDemoPage)).length +
          (findOverlappingText whitePixelImage.data whitePixelImage.width
            whitePixelImage.height).length) ++
        " overlapping text region(s) (" ++
        toString (detectOverlapsFromPDF (some overlapDemoPage)).length ++ " PDF, " ++
        toString (findOverlappingText whitePixelImage.data whitePixelImage.width
          whitePixelImage.height).length ++ " pixel)" :=
  ⟨by decide, (c6_overlap_union whitePixelImage (some overlapDemoPage)).2.2 (by decide)⟩

/-- Any region the pairwise PDF loop reports comes from two items that both
lie outside every bubble exclusion zone. -/
theorem pairLoop_mem {vt : TMat} {scale : ℚ} {bubbles : List Bubble} :
    ∀ {items : List TextItem} {r : Region}, r ∈ pairLoop vt scale bubbles items →
    ∃ i1 i2 : TextItem,
      isInsideBubble i1.transform.t4 i1.transform.t5 i1.width i1.height bubbles = false ∧
      isInsideBubble i2.transform.t4 i2.transform.t5 i2.width i2.height bubbles = false ∧
      overlapOfPair vt scale i1 i2 = some r := by
  intro items
  induction items with
  | nil => intro r hr; cases hr
  | cons item1 rest ih =>
    intro r hr
    rw [pairLoop] at hr
    rcases List.mem_append.mp hr with h1 | h2
    · rw [pairsFrom] at h1
      by_cases hb : isInsideBubble item1.transform.t4 item1.transform.t5 item1.width
          item1.height bubbles = true
      · rw [if_pos hb] at h1
        cases h1
      · rw [if_neg hb] at h1
        obtain ⟨i2, hmem, hf⟩ := List.mem_filterMap.mp h1
        by_cases hb2 : isInsideBubble i2.transform.t4 i2.transform.t5 i2.width i2.height
            bubbles = true
        · rw [if_pos hb2] at hf
          cases hf
        · rw [if_neg hb2] at hf
          by_cases hfp : isFalsePositiveOverlap item1 i2 = true
          · rw [if_pos hfp] at hf
            cases hf
          · rw [if_neg hfp] at hf
            exact ⟨item1, i2, Bool.eq_false_iff.mpr hb, Bool.eq_false_iff.mpr hb2, hf⟩
    · exact ih h2

/-- C5: in the PDF-text method every reported overlap comes from two items
outside all callout-bubble exclusion zones; the demo strings behave per the
bubble rules, and the bubble demo page (items "3" and "630SX001" positioned
per the bubble geometry, raw boxes intersecting) reports no overlap. -/
theorem c5_bubble_exclusion (vp : Viewport) (allItems : List TextItem) :
    (∀ r ∈ detectOverlapsFromPDF (some ⟨some allItems, vp⟩),
      ∃ i1 i2 : TextItem,
        isInsideBubble i1.transform.t4 i1.transform.t5 i1.width i1.height
          (findCalloutBubbles allItems) = false ∧
        isInsideBubble i2.transform.t4 i2.transform.t5 i2.width i2.height
          (findCalloutBubbles allItems) = false ∧
        overlapOfPair vp.transform vp.scale i1 i2 = some r) ∧
    isStandaloneDetailReference "630SX001" = true ∧
    isBubbleNumber "3" = true ∧
    detectOverlapsFromPDF (some bubbleDemoPage) = [] := by
  refine ⟨fun r hr => pairLoop_mem hr, by decide, by decide, by decide⟩

/-- Witness for C5: the genuine overlap on the bubble-free demo page. -/
theorem c5_bubble_exclusion_witness :
    demoOverlapRegion ∈
      detectOverlapsFromPDF (some ⟨some [itemHello, itemWorld], demoViewport⟩) ∧
    ∃ i1 i2 : TextItem,
      isInsideBubble i1.transform.t4 i1.transform.t5 i1.width i1.height
        (findCalloutBubbles [itemHello, itemWorld]) = false ∧
      isInsideBubble i2.transform.t4 i2.transform.t5 i2.width i2.height
        (findCalloutBubbles [itemHello, itemWorld]) = false ∧
      overlapOfPair demoViewport.transform demoViewport.scale i1 i2 =
        some demoOverlapRegion :=
  ⟨by decide, (c5_bubble_exclusion demoViewport [itemHello, itemWorld]).1
    demoOverlapRegion (by decide)⟩

/-- C3 (corrected): `valuesMatch` under exact binary64 semantics.  The
numeric branch compares `|parseFloat a - parseFloat b| <= 0.005` in floats:
"0.77" vs "0.78" differ by more than the tolerance and mismatch, while
"0.77" vs "0.774" match; the category branch compares uppercased trimmed
strings, so "d" matches "D" and "D" mismatches "E". -/
theorem c3_values_match :
    valuesMatch "0.77" "0.78" "numeric" = false ∧
    valuesMatch "0.77" "0.774" "numeric" = true ∧
    valuesMatch "d" "D" "category" = true ∧
    valuesMatch "D" "E" "category" = false :=
  ⟨by decide, by decide, by decide, by decide⟩

/-- Counterexample for C3: in binary64, `0.775 - 0.77` evaluates to
`0.005000000000000004...`, strictly above the float `0.005`, so the spec's
example pair "0.770" / "0.775" is a mismatch, not a match. -/
theorem c3_counterexample : valuesMatch "0.770" "0.775" "numeric" = false := by decide

/-! ## C2: geotech extraction priority -/

theorem sdsCfgPatterns : (SEISMIC_PATTERNS SKey.Sds).patterns = sdsPatterns := rfl

/-- A pattern with no match on a page yields nothing for that page. -/
theorem tryPatternPages_empty {cfg : SeismicConfig} {pat : RE} {pg : PageText}
    (h : reMatchAll pat pg.fullText = []) : tryPatternPages cfg pat [pg] = none := by
  simp only [tryPatternPages, h, selectBestAux]

/-- A parameter none of whose patterns yields a page result extracts nothing. -/
theorem tryPatternList_none {cfg : SeismicConfig} {pages : List PageText} :
    ∀ {ps : List RE}, (∀ p ∈ ps, tryPatternPages cfg p pages = none) →
      tryPatternList cfg pages ps = none := by
  intro ps
  induction ps with
  | nil => intro h; rfl
  | cons p ps ih =>
    intro h
    simp only [tryPatternList, h p (by simp)]
    exact ih fun q hq => h q (List.mem_cons_of_mem p hq)

theorem mAllTie : reMatchAll sdsPattern1 c2TiePage.fullText =
    [⟨16, 25, "SDS: 1.20", some "1.20"⟩, ⟨35, 44, "SDS: 0.95", some "0.95"⟩] := by decide

theorem mAllPrio : reMatchAll sdsPattern1 c2PriorityPage.fullText =
    [⟨93, 102, "SDS: 1.20", some "1.20"⟩, ⟨295, 304, "SDS: 0.95", some "0.95"⟩] := by decide

theorem tiePP : tryPatternPages (SEISMIC_PATTERNS SKey.Sds) sdsPattern1 [c2TiePage] =
    some ("1.2", 1, 1) := by
  simp only [tryPatternPages, mAllTie]
  decide

theorem prioPP : tryPatternPages (SEISMIC_PATTERNS SKey.Sds) sdsPattern1 [c2PriorityPage] =
    some ("0.95", 1, 1) := by
  simp only [tryPatternPages, mAllPrio]
  decide

/-- C2 (corrected): the priority tie-break of `extractSeismicValues` on the
colon format its patterns do match.  On a page whose ASCE-context value comes
first and whose site-specific value sits in a disjoint ±100-character window,
the site-specific match (priority 2) wins over the ASCE-context match
(priority 0); on a page where both matches carry equal priority the
first-seen match is kept. -/
theorem c2_priority_selection :
    (extractEntryFor [c2PriorityPage] SKey.Sds).value = some "0.95" ∧
    (extractEntryFor [c2TiePage] SKey.Sds).value = some "1.2" ∧
    contextPriority c2PriorityPage.fullText 93 = 0 ∧
    contextPriority c2PriorityPage.fullText 295 = 2 ∧
    contextPriority c2TiePage.fullText 16 = 1 ∧
    contextPriority c2TiePage.fullText 35 = 1 := by
  refine ⟨?_, ?_, by decide, by decide, by decide, by decide⟩
  · simp only [extractEntryFor, sdsCfgPatterns, sdsPatterns, tryPatternList, prioPP]
  · simp only [extractEntryFor, sdsCfgPatterns, sdsPatterns, tryPatternList, tiePP]

/-- Counterexample for C2: the spec's own example page, carrying both
parenthesised table entries verbatim, matches none of the Sds patterns (the
colon does not directly follow the label), so extraction returns no value at
all rather than "0.95". -/
theorem c2_counterexample :
    strContains c2Page.fullText "SDS (ASCE 11.4): 1.20" = true ∧
    strContains c2Page.fullText "SDS (Site Specific): 0.95" = true ∧
    (extractEntryFor [c2Page] SKey.Sds).value = none := by
  refine ⟨by decide, by decide, ?_⟩
  have hall : ∀ p ∈ sdsPatterns, reMatchAll p c2Page.fullText = [] := by decide
  have hlist : tryPatternList (SEISMIC_PATTERNS SKey.Sds) [c2Page] sdsPatterns = none :=
    tryPatternList_none fun p hp => tryPatternPages_empty (hall p hp)
  simp only [extractEntryFor, sdsCfgPatterns, hlist]

/-! ## C10: the unreachable require call -/

/-- When the notes search finds nothing, no pattern of the list matches. -/
theorem findInNotes_none {cfg : SeismicConfig} {t : String} :
    ∀ {ps : List RE}, findInNotes cfg t ps = none →
      ps.any (fun p => !(reMatchAll p t).isEmpty) = false := by
  intro ps
  induction ps with
  | nil => intro h; rfl
  | cons p ps ih =>
    intro h
    cases hm : reMatchAll p t with
    | nil =>
      simp only [findInNotes, hm] at h
      simp [hm, ih h]
    | cons m ms =>
      simp only [findInNotes, hm] at h
      exact Option.noConfusion h

/-- Any expected parameter found in the notes drives `compareValuesInNotes`
into the `require` statement, which throws. -/
theorem compare_found_error {t : String} :
    ∀ {evs : List (SKey × ExtractedEntry)}, (∃ ke ∈ evs, entryFound t ke = true) →
      compareValuesInNotes t evs = .error "require is not defined" := by
  intro evs
  induction evs with
  | nil =>
    rintro ⟨ke, hm, -⟩
    cases hm
  | cons ke rest ih =>
    rintro ⟨ke', hm, hf⟩
    obtain ⟨key, exp⟩ := ke
    cases hm with
    | head =>
      simp only [entryFound] at hf
      cases hv : exp.value with
      | none =>
        rw [hv] at hf
        cases hf
      | some v =>
        rw [hv] at hf
        simp only [Bool.and_eq_true] at hf
        obtain ⟨hne, hany⟩ := hf
        have hne' : v.isEmpty = false := by
          cases hie : v.isEmpty with
          | false => rfl
          | true => rw [hie] at hne; cases hne
        have hfn : findInNotes (SEISMIC_PATTERNS key) t (SEISMIC_PATTERNS key).patterns ≠
            none := by
          intro hnone
          rw [findInNotes_none hnone] at hany
          cases hany
        cases hfo : findInNotes (SEISMIC_PATTERNS key) t (SEISMIC_PATTERNS key).patterns with
        | none => exact absurd hfo hfn
        | some s =>
          simp only [compareValuesInNotes, hv, hne', Bool.false_eq_true, if_false, hfo]
    | tail _ hmem =>
      have hrest := ih ⟨ke', hmem, hf⟩
      cases hv : exp.value with
      | none => simp only [compareValuesInNotes, hv, hrest]
      | some v =>
        cases hie : v.isEmpty with
        | true => simp only [compareValuesInNotes, hv, hie, if_true, hrest]
        | false =>
          cases hfo : findInNotes (SEISMIC_PATTERNS key) t
              (SEISMIC_PATTERNS key).patterns with
          | some s =>
            simp only [compareValuesInNotes, hv, hie, Bool.false_eq_true, if_false, hfo]
          | none =>
            simp only [compareValuesInNotes, hv, hie, Bool.false_eq_true, if_false, hfo,
              hrest]

/-- A comparison that completes normally carries no matches and no
mismatches: only the all-missing outcome is reachable. -/
theorem compare_ok_empty {t : String} :
    ∀ {evs : List (SKey × ExtractedEntry)} {r : CompareResults},
      compareValuesInNotes t evs = .ok r → r.«matches» = [] ∧ r.mismatches = [] := by
  intro evs
  induction evs with
  | nil =>
    intro r h
    simp only [compareValuesInNotes] at h
    cases h
    exact ⟨rfl, rfl⟩
  | cons ke rest ih =>
    obtain ⟨key, exp⟩ := ke
    intro r h
    cases hv : exp.value with
    | none =>
      rw [compareValuesInNotes, hv] at h
      exact ih h
    | some v =>
      cases hie : v.isEmpty with
      | true =>
        rw [compareValuesInNotes, hv] at h
        simp only [hie, if_true] at h
        exact ih h
      | false =>
        rw [compareValuesInNotes, hv] at h
        simp only [hie, Bool.false_eq_true, if_false] at h
        cases hfo : findInNotes (SEISMIC_PATTERNS key) t
            (SEISMIC_PATTERNS key).patterns with
        | some s =>
          rw [hfo] at h
          cases h
        | none =>
          rw [hfo] at h
          cases hcr : compareValuesInNotes t rest with
          | error e =>
            rw [hcr] at h
            cases h
          | ok r' =>
            rw [hcr] at h
            cases h
            have hih := ih hcr
            exact ⟨hih.1, hih.2⟩

/-- `detectGeotechMismatches` can never return a record with a non-empty
match or mismatch list. -/
theorem geo_empty (img : String) (gd : Option GeotechData) (pgs : Option (List PageText)) :
    (detectGeotechMismatches img gd pgs).«matches» = [] ∧
    (detectGeotechMismatches img gd pgs).mismatches = [] := by
  match gd with
  | none => exact ⟨rfl, rfl⟩
  | some ⟨none⟩ => exact ⟨rfl, rfl⟩
  | some ⟨some evs⟩ =>
    match pgs with
    | none => exact ⟨rfl, rfl⟩
    | some [] => exact ⟨rfl, rfl⟩
    | some (p0 :: ps) =>
      cases hns : findGeneralNotesSection (p0 :: ps) with
      | none => simp only [detectGeotechMismatches, hns]; exact ⟨rfl, rfl⟩
      | some ns =>
        cases hcv : compareValuesInNotes ns.text evs with
        | error e =>
          simp only [detectGeotechMismatches, hns, hcv]
          exact ⟨rfl, rfl⟩
        | ok comparison =>
          obtain ⟨h1, h2⟩ := compare_ok_empty hcv
          simp only [detectGeotechMismatches, hns, hcv, h1, h2, List.filterMap_nil]
          exact ⟨trivial, trivial⟩

/-- C10: whenever some expected parameter's pattern list matches the notes
text, `compareValuesInNotes` reaches the `require` call of the ES module and
throws "require is not defined"; a normal completion carries empty match and
mismatch lists, `detectGeotechMismatches` therefore never reports matches or
mismatches, and on the demo input the catch branch returns the zero-count
verification-error result. -/
theorem c10_require_unreachable (t : String) (evs : List (SKey × ExtractedEntry)) :
    ((∃ ke ∈ evs, entryFound t ke = true) →
      compareValuesInNotes t evs = .error "require is not defined") ∧
    (∀ r : CompareResults, compareValuesInNotes t evs = .ok r →
      r.«matches» = [] ∧ r.mismatches = []) ∧
    (∀ (img : String) (gd : Option GeotechData) (pgs : Option (List PageText)),
      (detectGeotechMismatches img gd pgs).«matches» = [] ∧
      (detectGeotechMismatches img gd pgs).mismatches = []) ∧
    detectGeotechMismatches "" (some ⟨some demoEVs⟩) (some [demoDrawPage]) =
      zeroGeo "Verification error: require is not defined" := by
  refine ⟨fun h => compare_found_error h, fun r h => compare_ok_empty h,
    fun img gd pgs => geo_empty img gd pgs, ?_⟩
  have hfind : findGeneralNotesSection [demoDrawPage] =
      some { pageNumber := 1, text := demoDrawPage.fullText, startIndex := some 0,
             fallback := true } := by decide
  have hcmp : compareValuesInNotes demoDrawPage.fullText demoEVs =
      .error "require is not defined" :=
    compare_found_error ⟨(SKey.Sds, demoSdsEntry), by simp [demoEVs], by decide⟩
  simp only [detectGeotechMismatches, hfind, hcmp]
  rfl

/-- Witness for C10: the Sds entry is found in the demo notes text, the
comparison throws there, and the empty comparison completes normally. -/
theorem c10_require_unreachable_witness :
    (∃ ke ∈ demoEVs, entryFound demoDrawPage.fullText ke = true) ∧
    compareValuesInNotes demoDrawPage.fullText demoEVs = .error "require is not defined" ∧
    ((⟨[], [], []⟩ : CompareResults).«matches» = [] ∧
      (⟨[], [], []⟩ : CompareResults).mismatches = []) := by
  have hex : ∃ ke ∈ demoEVs, entryFound demoDrawPage.fullText ke = true :=
    ⟨(SKey.Sds, demoSdsEntry), by simp [demoEVs], by decide⟩
  exact ⟨hex, (c10_require_unreachable demoDrawPage.fullText demoEVs).1 hex,
    (c10_require_unreachable "" []).2.1 ⟨[], [], []⟩ (by rfl)⟩
